import Mathlib

/-!
Verification of the mirrorme Trello synchronization engine.

The repository keeps one aggregate Trello board in sync with several source
boards.  Two revisions of the engine exist in the tree:

* `src/trello-sync.js` — the revision without locks or retries; its
  `handleCardMove` recreates a mirrored card once when a remote mutation
  fails with HTTP 404.
* `src/unnamed/part_008` — the revision with `fetchWithRetry`,
  per-card locks, the self-healing search `findExistingMirroredCards`, and the
  explicit due-date cascade.

Both are embedded below (namespaces `Sync` for `src/trello-sync.js` and `P8`
for `src/unnamed/part_008`), together with the static configuration from
`src/config.js`.  JavaScript strings are modelled as `String`, JS `Map`s as
association lists with JS `Map` semantics (insertion order preserved, `set`
overwrites in place), remote calls as an environment record plus an explicit
call trace, and a JS `throw` as an `Except` error value.
-/

namespace Mirror

/-! ## JS string primitives used by the engine

`String.prototype.includes`, the provenance regex
`/Original board: (.*?)(?:\n|$)/` and `String.prototype.split('-')` are
modelled on the character lists underlying `String`. -/

/-- JS `haystack.includes(needle)`: `needle` occurs as a contiguous
substring of `haystack`. -/
def containsSub (haystack needle : List Char) : Bool :=
  match haystack with
  | [] => needle.isEmpty
  | _ :: rest => needle.isPrefixOf haystack || containsSub rest needle

/-- The marker prefix written into every mirrored card description. -/
def markerChars : List Char := ("Original board: ").data

/-- The provenance regex `/Original board: (.*?)(?:\n|$)/` applied to a
description: find the first occurrence of `"Original board: "` and capture
the following characters up to (excluding) the first newline or the end of
the string. -/
def findMarkerCapture : List Char → Option (List Char)
  | [] => none
  | c :: rest =>
    if markerChars.isPrefixOf (c :: rest) then
      some (((c :: rest).drop markerChars.length).takeWhile (fun ch => ch ≠ '\n'))
    else
      findMarkerCapture rest

/-- `card.desc.match(/Original board: (.*?)(?:\n|$)/)`, returning the first
capture group (`boardMatch[1]`) when the regex matches. -/
def parseOriginalBoard (desc : String) : Option String :=
  (findMarkerCapture desc.data).map (fun cs => String.mk cs)

/-- JS `key.split('-')` on the character list of a mapping key. -/
def splitOnDash : List Char → List (List Char)
  | [] => [[]]
  | c :: rest =>
    let r := splitOnDash rest
    if c = '-' then [] :: r
    else
      match r with
      | [] => [[c]]
      | h :: t => (c :: h) :: t

/-- `const [boardId, cardId] = mappingKey.split('-')` — JS array
destructuring of the first two split components (`""` for a missing
component, mirroring `undefined` never comparing equal to a real id). -/
def splitKey (key : String) : String × String :=
  let parts := splitOnDash key.data
  (String.mk (parts.headD []), String.mk ((parts.drop 1).headD []))

/-- Description written by `createMirroredCard` / `updateMirroredCard`:
`` `Original board: ${sourceBoard.name}\n\n${fullCard.desc || ''}` ``. -/
def mkMirrorDesc (boardName desc : String) : String :=
  "Original board: " ++ boardName ++ "\n\n" ++ desc

/-! ## Static configuration (`src/config.js`) -/

structure Board where
  id : String
  name : String
  deriving Repr, DecidableEq

structure ListPriority where
  name : String
  maxDays : Int
  deriving Repr, DecidableEq

/-- `config.sourceBoards` from `src/config.js`. -/
def sourceBoards : List Board :=
  [ ⟨"67aca823198750b8d3e332a4", "prive"⟩,
    ⟨"67acb53d60d68b99ef11344d", "mba"⟩,
    ⟨"67acb47a4c0afec8a06c9870", "opdracht"⟩,
    ⟨"67acabbf06e3955d1e3be739", "tim-oudeboon-bv"⟩ ]

/-- `config.aggregateBoard`. -/
def aggregateBoard : String := "67aca8e24e193b7fa5580831"

/-- `config.listNames` — the tracked list names. -/
def listNames : List String :=
  ["Inbox", "Komende 30 dagen", "Komende 7 dagen", "Vandaag", "Done"]

/-- `config.listPriorities` — due-date urgency tiers, ascending `maxDays`. -/
def listPriorities : List ListPriority :=
  [⟨"Vandaag", 0⟩, ⟨"Komende 7 dagen", 7⟩, ⟨"Komende 30 dagen", 30⟩]

/-! ## Due-date tier selection

`daysDifference = Math.ceil((dueDate - today) / (1000*60*60*24))`.
`Math.ceil` of a real quotient with positive divisor is embedded as integer
ceiling division. -/

/-- Milliseconds per day, the divisor `1000 * 60 * 60 * 24`. -/
def msPerDay : Int := 86400000

/-- Integer ceiling division by a positive divisor
(`Math.ceil(a / b)` for integral `a`): `⌈a/b⌉ = -⌊(-a)/b⌋`, where `Int`
division is Euclidean and hence floors for a positive divisor. -/
def ceilDiv (a b : Int) : Int := -((-a) / b)

/-- `daysDifference` computed from the raw millisecond difference
`dueDate - today`. -/
def daysDifference (diffMs : Int) : Int := ceilDiv diffMs msPerDay

/-- Tier selection of `src/unnamed/part_008` `handleDueDateListMovement`
(lines 178–191): an explicit if/else-if cascade over the normalized
`daysDifference`. -/
def selectTierCascade (d : Int) : Option ListPriority :=
  if d ≤ 0 then
    listPriorities.find? (fun p => p.name = "Vandaag")
  else if d ≤ 7 then
    listPriorities.find? (fun p => p.name = "Komende 7 dagen")
  else if d ≤ 30 then
    listPriorities.find? (fun p => p.name = "Komende 30 dagen")
  else
    none

/-- Tier selection of `src/trello-sync.js` `handleDueDateListMovement`
(lines 82–89): `config.listPriorities.find(priority => priority.maxDays >= 0
&& (daysDifference <= priority.maxDays || (priority.name === 'Vandaag' &&
dueDate <= today)))`, where `dueDate <= today` is `diffMs ≤ 0`. -/
def selectTierFind (diffMs : Int) : Option ListPriority :=
  listPriorities.find? (fun p =>
    decide (0 ≤ p.maxDays) &&
      (decide (daysDifference diffMs ≤ p.maxDays) ||
        (p.name = "Vandaag" && decide (diffMs ≤ 0))))

/-! ## `fetchWithRetry` (`src/unnamed/part_008`, lines 79–104)

The wrapped operation is modelled as a script `Nat → Except Nat α` giving
the outcome of each invocation (`.error code` = a rejection carrying
`error.status = code`), and `Math.random() * 500` jitter as a function
`Nat → Nat` of the attempt number.  The embedding returns the final
outcome, the list of backoff sleeps issued, and the number of invocations
of the operation. -/

inductive RetryError where
  /-- a non-429 error rethrown immediately, carrying `error.status` -/
  | status (code : Nat) : RetryError
  /-- the terminal `'API call failed after maximum retries'` error -/
  | exhausted : RetryError
  deriving Repr, DecidableEq

/-- `baseDelay` — 1 second initial delay. -/
def baseDelay : Nat := 1000

/-- The retry loop `for (let attempt = 1; attempt <= maxRetries; attempt++)`;
`remaining` is the number of loop iterations left, `attempt` the current
attempt number. -/
def fetchGo (script : Nat → Except Nat α) (jitter : Nat → Nat) :
    Nat → Nat → Except RetryError α × List Nat × Nat
  | 0, _ => (.error .exhausted, [], 0)
  | remaining + 1, attempt =>
    match script attempt with
    | .ok a => (.ok a, [], 1)
    | .error code =>
      if code = 429 then
        let waitTime := baseDelay * 2 ^ attempt + jitter attempt
        let rest := fetchGo script jitter remaining (attempt + 1)
        (rest.1, waitTime :: rest.2.1, rest.2.2 + 1)
      else
        (.error (.status code), [], 1)

/-- `fetchWithRetry(apiCall, maxRetries = 3)`. -/
def fetchWithRetry (script : Nat → Except Nat α) (jitter : Nat → Nat)
    (maxRetries : Nat := 3) : Except RetryError α × List Nat × Nat :=
  fetchGo script jitter maxRetries 1

/-! ## Shared data model for the sync engine -/

/-- `this.boardColorMap[sourceBoard.name] || 'blue'` over
`config.boardMapping`. -/
def boardColor (name : String) : String :=
  if name = "prive" then "green_light"
  else if name = "mba" then "blue_dark"
  else if name = "opdracht" then "red_light"
  else if name = "tim-oudeboon-bv" then "orange_dark"
  else "blue"

structure TLabel where
  id : String
  name : String
  deriving Repr, DecidableEq

structure LabelRef where
  id : String
  deriving Repr, DecidableEq

/-- A full card as returned by `GET /cards/{id}`; `desc` uses `""` for a
missing description (`fullCard.desc || ''`), `labels = none` models an
absent `labels` array (JS `undefined`). -/
structure FullCard where
  id : String
  name : String
  desc : String
  due : Option String
  labels : Option (List LabelRef)
  idList : String
  deriving Repr, DecidableEq

/-- The card object of an inbound webhook event. -/
structure CardStub where
  id : String
  name : String
  deriving Repr, DecidableEq

/-- The target list object of an inbound event. -/
structure TList where
  name : String
  deriving Repr, DecidableEq

/-- A card on the aggregate board as seen by `handleAggregateCardMove`
(`desc = ""` models a falsy description). -/
structure AggCard where
  id : String
  name : String
  desc : String
  deriving Repr, DecidableEq

/-- Partial update payload of `trelloApi.updateCard`; each field is `some`
exactly when the corresponding key is present in the JS update object. -/
structure CardUpdate where
  idList : Option String := none
  idLabels : Option (List String) := none
  due : Option (Option String) := none
  name : Option String := none
  desc : Option String := none
  deriving Repr, DecidableEq

/-- One remote API request issued by the engine. -/
inductive Call where
  | getCard (cardId : String)
  | getCards (boardId : String)
  | getLabels (boardId : String)
  | createLabel (boardId : String) (name : String) (color : String)
  | createCard (listId : String) (name : String) (desc : String)
      (due : Option String) (idLabels : List String)
  | updateCard (cardId : String) (upd : CardUpdate)
  | deleteCard (cardId : String)
  deriving Repr, DecidableEq

/-- Remote requests that mutate state on the Trello side. -/
def Call.isMutation : Call → Bool
  | .createLabel _ _ _ => true
  | .createCard _ _ _ _ _ => true
  | .updateCard _ _ => true
  | .deleteCard _ => true
  | _ => false

def Call.isCreateCard : Call → Bool
  | .createCard _ _ _ _ _ => true
  | _ => false

def Call.isDeleteCard : Call → Bool
  | .deleteCard _ => true
  | _ => false

def Call.isUpdateCard : Call → Bool
  | .updateCard _ _ => true
  | _ => false

/-- A JS exception: `some n` carries `error.status = n` (HTTP error from
`trelloApi`), `none` is a plain `Error` without a status field. -/
abbrev Err := Option Nat

/-! ## JS `Map` as an association list

JS `Map` preserves insertion order; `set` on an existing key overwrites in
place, `delete` removes the entry. -/

def mapGet (m : List (String × String)) (k : String) : Option String :=
  (m.find? (fun e => e.1 = k)).map (fun e => e.2)

def mapSet (m : List (String × String)) (k v : String) : List (String × String) :=
  match m with
  | [] => [(k, v)]
  | e :: rest => if e.1 = k then (k, v) :: rest else e :: mapSet rest k v

def mapDelete (m : List (String × String)) (k : String) : List (String × String) :=
  m.filter (fun e => e.1 ≠ k)

/-- The two in-memory mappings of `TrelloSync`. -/
structure SyncState where
  listMapping : List (String × String)
  cardMapping : List (String × String)
  deriving Repr, DecidableEq

/-- The remote service and clock as seen by one handler invocation:
outcomes of each kind of request, and `Date` arithmetic. -/
structure Env where
  getCard : String → Except Err FullCard
  getLabels : Except Err (List TLabel)
  createLabel : String → String → Except Err TLabel
  createCard : Except Err String
  updateCard : String → CardUpdate → Except Err Unit
  deleteCard : String → Except Err Unit
  nowMs : Int
  dateMs : String → Int

namespace Sync

/-! ## `src/trello-sync.js` — the revision with 404-recreation -/

/-- `handleDueDateListMovement(card, boardId)` (`src/trello-sync.js`
lines 49–118).  Every failure is swallowed (`return` / logged catch), so the
function only produces a call trace. -/
def handleDueDateListMovement (env : Env) (st : SyncState) (card : CardStub)
    (boardId : String) : List Call :=
  match env.getCard card.id with
  | .error _ => [.getCard card.id]
  | .ok fullCard =>
    match fullCard.due with
    | none => [.getCard card.id]
    | some due =>
      let diffMs := env.dateMs due - env.nowMs
      match selectTierFind diffMs with
      | none => [.getCard card.id]
      | some tier =>
        match mapGet st.listMapping (boardId ++ "-" ++ tier.name) with
        | none => [.getCard card.id]
        | some targetListId =>
          [.getCard card.id, .updateCard card.id { idList := some targetListId }]

/-- `createMirroredCard(card, sourceBoard, targetList)` (lines 236–289).
Returns the call trace and either the new mirrored card id or the thrown
error. -/
def createMirroredCard (env : Env) (st : SyncState) (card : CardStub)
    (sourceBoard : Board) (targetList : TList) : List Call × Except Err String :=
  match env.getCard card.id with
  | .error e => ([.getCard card.id], .error e)
  | .ok fullCard =>
    match mapGet st.listMapping ("aggregate-" ++ targetList.name) with
    | none => ([.getCard card.id], .error none)
    | some aggregateListId =>
      let originLabelName := "Origin:" ++ sourceBoard.name
      let labelColor := boardColor sourceBoard.name
      match env.getLabels with
      | .error e => ([.getCard card.id, .getLabels aggregateBoard], .error e)
      | .ok labels =>
        let found := labels.find? (fun l => l.name = originLabelName)
        let labelStep : List Call × Except Err TLabel :=
          match found with
          | some originLabel => ([], .ok originLabel)
          | none =>
            match env.createLabel originLabelName labelColor with
            | .ok originLabel =>
              ([.createLabel aggregateBoard originLabelName labelColor], .ok originLabel)
            | .error e =>
              ([.createLabel aggregateBoard originLabelName labelColor], .error e)
        match labelStep with
        | (lcalls, .error e) =>
          ([.getCard card.id, .getLabels aggregateBoard] ++ lcalls, .error e)
        | (lcalls, .ok originLabel) =>
          let labelIds :=
            match fullCard.labels with
            | some ls => ls.map (fun l => l.id) ++ [originLabel.id]
            | none => [originLabel.id]
          let descText := mkMirrorDesc sourceBoard.name fullCard.desc
          let theCall := Call.createCard aggregateListId card.name descText fullCard.due labelIds
          match env.createCard with
          | .ok newId =>
            ([.getCard card.id, .getLabels aggregateBoard] ++ lcalls ++ [theCall], .ok newId)
          | .error e =>
            ([.getCard card.id, .getLabels aggregateBoard] ++ lcalls ++ [theCall], .error e)

/-- `updateMirroredCard(mirroredCardId, card, sourceBoard, targetList)`
(lines 291–333).  The label lookup failure is caught and swallowed; the
update itself may throw. -/
def updateMirroredCard (env : Env) (st : SyncState) (mirroredCardId : String)
    (card : CardStub) (sourceBoard : Board) (targetList : TList) :
    List Call × Except Err Unit :=
  match env.getCard card.id with
  | .error e => ([.getCard card.id], .error e)
  | .ok fullCard =>
    match mapGet st.listMapping ("aggregate-" ++ targetList.name) with
    | none => ([.getCard card.id], .error none)
    | some aggregateListId =>
      let originLabelName := "Origin:" ++ sourceBoard.name
      let originLabel : Option TLabel :=
        match env.getLabels with
        | .error _ => none
        | .ok labels => labels.find? (fun l => l.name = originLabelName)
      let baseIds :=
        match fullCard.labels with
        | some ls => ls.map (fun l => l.id)
        | none => []
      let labelIds :=
        match originLabel with
        | some l => baseIds ++ [l.id]
        | none => baseIds
      let upd : CardUpdate :=
        { idList := some aggregateListId, idLabels := some labelIds,
          due := some fullCard.due, name := some card.name,
          desc := some (mkMirrorDesc sourceBoard.name fullCard.desc) }
      match env.updateCard mirroredCardId upd with
      | .ok _ =>
        ([.getCard card.id, .getLabels aggregateBoard, .updateCard mirroredCardId upd], .ok ())
      | .error e =>
        ([.getCard card.id, .getLabels aggregateBoard, .updateCard mirroredCardId upd], .error e)

/-- `deleteMirroredCard(mirroredCardId, cardMappingKey)` (lines 335–343).
The mapping entry is removed only after the remote delete succeeds; a
thrown delete leaves the mapping untouched. -/
def deleteMirroredCard (env : Env) (st : SyncState) (mirroredCardId : String)
    (cardMappingKey : String) : SyncState × List Call × Except Err Unit :=
  match env.deleteCard mirroredCardId with
  | .error e => (st, [.deleteCard mirroredCardId], .error e)
  | .ok _ =>
    ({ st with cardMapping := mapDelete st.cardMapping cardMappingKey },
      [.deleteCard mirroredCardId], .ok ())

/-- The `try` body of `handleCardMove(card, sourceBoard, targetList)`
(lines 155–204): Inbox due-date nudge, then the create/update/delete
decision on `cardMapping` and the tracked-list set. -/
def handleCardMoveBody (env : Env) (st : SyncState) (card : CardStub)
    (sourceBoard : Board) (targetList : TList) :
    SyncState × List Call × Except Err Unit :=
  let inboxStep : List Call × Option Err :=
    if targetList.name = "Inbox" then
      match env.getCard card.id with
      | .error e => ([.getCard card.id], some e)
      | .ok fullCard =>
        if fullCard.due.isSome then
          (.getCard card.id :: handleDueDateListMovement env st card sourceBoard.id, none)
        else
          ([.getCard card.id], none)
    else ([], none)
  match inboxStep with
  | (calls0, some e) => (st, calls0, .error e)
  | (calls0, none) =>
    let isConfiguredList := listNames.contains targetList.name
    let cardMappingKey := sourceBoard.id ++ "-" ++ card.id
    match mapGet st.cardMapping cardMappingKey with
    | none =>
      if isConfiguredList then
        match createMirroredCard env st card sourceBoard targetList with
        | (calls, .ok newId) =>
          ({ st with cardMapping := mapSet st.cardMapping cardMappingKey newId },
            calls0 ++ calls, .ok ())
        | (calls, .error e) => (st, calls0 ++ calls, .error e)
      else
        (st, calls0, .ok ())
    | some mirroredCardId =>
      if isConfiguredList then
        let r := updateMirroredCard env st mirroredCardId card sourceBoard targetList
        (st, calls0 ++ r.1, r.2)
      else
        let r := deleteMirroredCard env st mirroredCardId cardMappingKey
        (r.1, calls0 ++ r.2.1, r.2.2)

/-- `handleCardMove` (lines 145–234) including its `catch`: on a thrown
`error.status === 404` one recreation via `recreateMirroredCard` (which
delegates to `createMirroredCard`) is attempted and, on success, recorded in
`cardMapping`; the original error is rethrown either way. -/
def handleCardMove (env : Env) (st : SyncState) (card : CardStub)
    (sourceBoard : Board) (targetList : TList) :
    SyncState × List Call × Except Err Unit :=
  match handleCardMoveBody env st card sourceBoard targetList with
  | (st1, calls, .ok _) => (st1, calls, .ok ())
  | (st1, calls, .error e) =>
    if e = some 404 then
      match createMirroredCard env st1 card sourceBoard targetList with
      | (rcalls, .ok newId) =>
        ({ st1 with
            cardMapping := mapSet st1.cardMapping (sourceBoard.id ++ "-" ++ card.id) newId },
          calls ++ rcalls, .error e)
      | (rcalls, .error _) => (st1, calls ++ rcalls, .error e)
    else
      (st1, calls, .error e)

/-- The reverse scan of `cardMapping` in `handleAggregateCardMove`
(lines 411–420): first entry whose value is the aggregate card id and whose
key splits to the resolved source board id. -/
def findOriginalCardId (cardMapping : List (String × String))
    (mirrorId boardId : String) : Option String :=
  (cardMapping.find? (fun e =>
      e.2 = mirrorId && (splitKey e.1).1 = boardId)).map
    (fun e => (splitKey e.1).2)

/-- The `try` body of `handleAggregateCardMove(card, targetList)`
(lines 371–452): fetch-on-missing-description, provenance parse, source
board resolution, reverse mapping scan, source list resolution, and the
inner `try` around the source-card update whose `catch` rethrows. -/
def aggregateMoveBody (env : Env) (st : SyncState) (card : AggCard)
    (targetList : TList) : List Call × Except Err Unit :=
  let step1 : List Call × Option (String × String) :=
    if card.desc = "" then
      match env.getCard card.id with
      | .error _ => ([.getCard card.id], none)
      | .ok fc => ([.getCard card.id], some (fc.id, fc.desc))
    else
      ([], some (card.id, card.desc))
  match step1 with
  | (calls, none) => (calls, .ok ())
  | (calls, some (cardId, desc)) =>
    match parseOriginalBoard desc with
    | none => (calls, .ok ())
    | some originalBoardName =>
      match sourceBoards.find? (fun b => b.name = originalBoardName) with
      | none => (calls, .ok ())
      | some sourceBoard =>
        match findOriginalCardId st.cardMapping cardId sourceBoard.id with
        | none => (calls, .ok ())
        | some originalCardId =>
          match mapGet st.listMapping (sourceBoard.id ++ "-" ++ targetList.name) with
          | none => (calls, .ok ())
          | some sourceListId =>
            let upd : CardUpdate := { idList := some sourceListId }
            match env.updateCard originalCardId upd with
            | .ok _ => (calls ++ [.updateCard originalCardId upd], .ok ())
            | .error e => (calls ++ [.updateCard originalCardId upd], .error e)

/-- `handleAggregateCardMove` (lines 370–461): the whole body runs inside
`try { ... } catch (mainError) { console.error(...) }`, so every thrown
error is absorbed and the function resolves normally; the in-memory
mappings are never written. -/
def handleAggregateCardMove (env : Env) (st : SyncState) (card : AggCard)
    (targetList : TList) : SyncState × List Call :=
  match aggregateMoveBody env st card targetList with
  | (calls, .ok _) => (st, calls)
  | (calls, .error _) => (st, calls)

end Sync

namespace P8

/-! ## `src/unnamed/part_008` — the revision with retry, locks and
self-healing

`handleDueDateListMovement` (lines 133–226).  The `processingCards`
short-circuit and the lock always pass for a single sequential invocation;
`setHours(0,0,0,0)` midnight normalization is modelled by `env.midnight`
applied to both instants. -/
def handleDueDateListMovement (env : Env) (midnight : Int → Int)
    (st : SyncState) (card : CardStub) (boardId : String) : List Call :=
  match env.getCard card.id with
  | .error _ => [.getCard card.id]
  | .ok fullCard =>
    match fullCard.due with
    | none => [.getCard card.id]
    | some due =>
      let d := daysDifference (midnight (env.dateMs due) - midnight env.nowMs)
      match selectTierCascade d with
      | none => [.getCard card.id]
      | some tier =>
        match mapGet st.listMapping (boardId ++ "-" ++ tier.name) with
        | none => [.getCard card.id]
        | some targetListId =>
          if fullCard.idList = targetListId then
            [.getCard card.id]
          else
            [.getCard card.id, .updateCard card.id { idList := some targetListId }]

/-! ### Per-card mirror state machine for `handleCardMove`
(`src/unnamed/part_008` lines 262–355)

All invocations concern one source card (fixed `(sourceBoardId, cardId)`
and hence one mapping key and a fixed card name — a move event does not
rename the card).  The state records the `cardMapping` entry for that key,
the aggregate board contents, and the next id the remote service will
assign to a created card (Trello never reuses card ids). -/

structure MirrorCard where
  id : Nat
  name : String
  desc : String
  deriving Repr, DecidableEq

structure MirrorState where
  /-- `this.cardMapping.get(cardMappingKey)` for this source card -/
  mapping : Option Nat
  /-- the cards currently on the aggregate board -/
  board : List MirrorCard
  /-- next id assigned by the remote service -/
  fresh : Nat
  deriving Repr, DecidableEq

/-- External conditions of one `handleCardMove` invocation: which remote
calls succeed, whether the target list is tracked, and the source card's
current description. -/
structure MoveEv where
  /-- the initial `GET /cards/{id}` succeeds -/
  fetchOk : Bool
  /-- the Inbox due-date branch fires and returns early (lines 293–317) -/
  inboxExit : Bool
  /-- `config.listNames.includes(targetList.name)` -/
  tracked : Bool
  /-- `getCards(aggregateBoard)` inside `findExistingMirroredCards`
  succeeds (on failure that helper returns `[]`) -/
  selfHealOk : Bool
  /-- the whole `createMirroredCard` call chain succeeds -/
  createOk : Bool
  /-- the `updateMirroredCard` call chain succeeds -/
  updateOk : Bool
  /-- the remote delete succeeds (given the card exists) -/
  deleteOk : Bool
  /-- the source card's description at this event -/
  srcDesc : String
  deriving Repr, DecidableEq

/-- The filter of `findExistingMirroredCards` (lines 118–121):
`c.name === card.name && c.desc.includes('Original board: <name>')`. -/
def isMirrorMatch (cardName boardName : String) (c : MirrorCard) : Bool :=
  c.name = cardName && containsSub c.desc.data ("Original board: " ++ boardName).data

/-- Effect of `updateMirroredCard` on the aggregate board: the card with
the mirrored id gets the source card's name and marker description. -/
def updateMirror (board : List MirrorCard) (m : Nat)
    (cardName boardName srcDesc : String) : List MirrorCard :=
  match board with
  | [] => []
  | c :: rest =>
    (if c.id = m then { c with name := cardName, desc := mkMirrorDesc boardName srcDesc }
     else c) :: updateMirror rest m cardName boardName srcDesc

/-- One `handleCardMove` invocation of `src/unnamed/part_008`
(lines 262–355) acting on the per-card state:

* a failed initial fetch, or the Inbox early return, leaves the state
  unchanged (the `finally` only releases the lock);
* no mapping entry and a tracked target: `findExistingMirroredCards`, adopt
  the first match into the mapping (then the update branch runs), else
  create a fresh mirrored card and record it;
* mapping entry and a tracked target: update the mirrored card;
* mapping entry and an untracked target: delete the mirrored card and
  remove the mapping entry — a remote 404 (mirror id absent from the
  board) throws before `cardMapping.delete`, leaving the entry in place;
* no mapping entry and an untracked target: no-op. -/
def step (cardName boardName : String) (ev : MoveEv) (s : MirrorState) : MirrorState :=
  if !ev.fetchOk then s
  else if ev.inboxExit then s
  else
    match s.mapping with
    | none =>
      if ev.tracked then
        let existing :=
          if ev.selfHealOk then s.board.filter (isMirrorMatch cardName boardName) else []
        match existing with
        | c :: _ =>
          let s1 := { s with mapping := some c.id }
          if ev.updateOk then
            { s1 with board := updateMirror s1.board c.id cardName boardName ev.srcDesc }
          else s1
        | [] =>
          if ev.createOk then
            { mapping := some s.fresh,
              board := s.board ++ [⟨s.fresh, cardName, mkMirrorDesc boardName ev.srcDesc⟩],
              fresh := s.fresh + 1 }
          else s
      else s
    | some m =>
      if ev.tracked then
        if ev.updateOk then
          { s with board := updateMirror s.board m cardName boardName ev.srcDesc }
        else s
      else
        if ev.deleteOk && s.board.any (fun c => c.id = m) then
          { s with mapping := none, board := s.board.filter (fun c => c.id ≠ m) }
        else s

/-- A sequence of `handleCardMove` invocations for the same source card. -/
def runMoves (cardName boardName : String) (s0 : MirrorState) (evs : List MoveEv) :
    MirrorState :=
  evs.foldl (fun s ev => step cardName boardName ev s) s0

/-- Number of mirrored cards of this source card on the aggregate board
(cards matching the self-healing search predicate). -/
def mirrorCount (cardName boardName : String) (s : MirrorState) : Nat :=
  (s.board.filter (isMirrorMatch cardName boardName)).length

/-- Consistency of the per-card state: remote ids are below the freshness
bound and duplicate-free, at most one mirrored card exists, and a mapping
entry points at a mirrored card present on the board. -/
def Inv (cardName boardName : String) (s : MirrorState) : Prop :=
  (∀ c ∈ s.board, c.id < s.fresh) ∧
  (s.board.map (fun c => c.id)).Nodup ∧
  (s.board.filter (isMirrorMatch cardName boardName)).length ≤ 1 ∧
  (match s.mapping with
   | none => True
   | some m => ∃ c ∈ s.board, c.id = m ∧ isMirrorMatch cardName boardName c = true)

end P8

/-! ## Concrete fixtures used by witness theorems -/

/-- A full card sitting in list `list-v` with a due date. -/
def okFullCard : FullCard :=
  ⟨"card1", "Task", "", some "2025-01-01", none, "list-v"⟩

/-- A benign remote environment in which every call succeeds. -/
def baseEnv : Env where
  getCard := fun _ => .ok okFullCard
  getLabels := .ok [⟨"lab-prive", "Origin:prive"⟩]
  createLabel := fun n _ => .ok ⟨"lab-new", n⟩
  createCard := .ok "mirror-new"
  updateCard := fun _ _ => .ok ()
  deleteCard := fun _ => .ok ()
  nowMs := 0
  dateMs := fun _ => 0

/-- The full update payload `updateMirroredCard` sends
(`{idList, idLabels, due, name, desc}`). -/
def mirrorUpd (aggId : String) (labelIds : List String) (due : Option String)
    (cardName descText : String) : CardUpdate :=
  { idList := some aggId, idLabels := some labelIds, due := some due,
    name := some cardName, desc := some descText }

/-! ## Claim C2 — due-date urgency tier selection -/

/-- `daysDifference diffMs ≤ 0` exactly when the due instant is not after
the reference instant. -/
theorem daysDifference_nonpos_iff (diffMs : Int) :
    daysDifference diffMs ≤ 0 ↔ diffMs ≤ 0 := by
  simp only [daysDifference, ceilDiv, msPerDay]
  omega

/-- C2: for every card with a due date, both tier-selection implementations
(`src/unnamed/part_008` lines 178–191 and `src/trello-sync.js`
lines 82–89) resolve, from
`daysDifference = ceil((due − today) / 1 day)`, the tier "Vandaag" when
`daysDifference ≤ 0`, "Komende 7 dagen" when `1 ≤ daysDifference ≤ 7`,
"Komende 30 dagen" when `8 ≤ daysDifference ≤ 30`, and no tier at all when
`daysDifference ≥ 31`. -/
theorem due_date_tier_selection (diffMs : Int) :
    (daysDifference diffMs ≤ 0 →
      selectTierCascade (daysDifference diffMs) = some ⟨"Vandaag", 0⟩ ∧
      selectTierFind diffMs = some ⟨"Vandaag", 0⟩) ∧
    (1 ≤ daysDifference diffMs → daysDifference diffMs ≤ 7 →
      selectTierCascade (daysDifference diffMs) = some ⟨"Komende 7 dagen", 7⟩ ∧
      selectTierFind diffMs = some ⟨"Komende 7 dagen", 7⟩) ∧
    (8 ≤ daysDifference diffMs → daysDifference diffMs ≤ 30 →
      selectTierCascade (daysDifference diffMs) = some ⟨"Komende 30 dagen", 30⟩ ∧
      selectTierFind diffMs = some ⟨"Komende 30 dagen", 30⟩) ∧
    (31 ≤ daysDifference diffMs →
      selectTierCascade (daysDifference diffMs) = none ∧
      selectTierFind diffMs = none) := by
  refine ⟨fun h => ⟨?_, ?_⟩, fun h1 h7 => ⟨?_, ?_⟩, fun h8 h30 => ⟨?_, ?_⟩, fun h31 => ⟨?_, ?_⟩⟩
  · rw [selectTierCascade, if_pos h]; rfl
  · have hm : diffMs ≤ 0 := (daysDifference_nonpos_iff diffMs).mp h
    simp [selectTierFind, listPriorities, h, hm]
  · rw [selectTierCascade, if_neg (by omega), if_pos h7]; rfl
  · have hm : ¬ diffMs ≤ 0 := by
      intro hc
      exact absurd ((daysDifference_nonpos_iff diffMs).mpr hc) (by omega)
    simp [selectTierFind, listPriorities, h7, hm]
    omega
  · rw [selectTierCascade, if_neg (by omega), if_neg (by omega), if_pos h30]; rfl
  · have hm : ¬ diffMs ≤ 0 := by
      intro hc
      exact absurd ((daysDifference_nonpos_iff diffMs).mpr hc) (by omega)
    simp [selectTierFind, listPriorities, h30, hm]
    omega
  · rw [selectTierCascade, if_neg (by omega), if_neg (by omega), if_neg (by omega)]
  · have hm : ¬ diffMs ≤ 0 := by
      intro hc
      exact absurd ((daysDifference_nonpos_iff diffMs).mpr hc) (by omega)
    simp [selectTierFind, listPriorities, hm]
    omega

/-- Witness for `due_date_tier_selection`, instantiating each tier boundary
at a concrete `diffMs` (0, 7, 30 and 31 days in milliseconds). -/
theorem due_date_tier_selection_witness :
    (selectTierCascade (daysDifference 0) = some ⟨"Vandaag", 0⟩ ∧
      selectTierFind 0 = some ⟨"Vandaag", 0⟩) ∧
    (selectTierCascade (daysDifference 604800000) = some ⟨"Komende 7 dagen", 7⟩ ∧
      selectTierFind 604800000 = some ⟨"Komende 7 dagen", 7⟩) ∧
    (selectTierCascade (daysDifference 2592000000) = some ⟨"Komende 30 dagen", 30⟩ ∧
      selectTierFind 2592000000 = some ⟨"Komende 30 dagen", 30⟩) ∧
    (selectTierCascade (daysDifference 2678400000) = none ∧
      selectTierFind 2678400000 = none) :=
  ⟨(due_date_tier_selection 0).1 (by decide),
    (due_date_tier_selection 604800000).2.1 (by decide) (by decide),
    (due_date_tier_selection 2592000000).2.2.1 (by decide) (by decide),
    (due_date_tier_selection 2678400000).2.2.2 (by decide)⟩

/-! ## Claim C3 — retry wrapper behavior -/

/-- C3: for `fetchWithRetry` (`src/unnamed/part_008` lines 79–104) with
jitters below 500 ms: a response sequence [429, 429, ok] yields exactly the
successful value after two backoff sleeps of `base·2¹ + jitter` and
`base·2² + jitter`, the second strictly longer than the first, with exactly
three invocations; a non-429 error on the first attempt is rethrown
immediately after one invocation with no sleeps; three consecutive 429s
produce the terminal exhausted-retries error with exactly three invocations
and no further attempts. -/
theorem retry_policy_behavior (script : Nat → Except Nat Nat) (jitter : Nat → Nat)
    (hj : ∀ n, jitter n < 500) :
    (∀ v, script 1 = .error 429 → script 2 = .error 429 → script 3 = .ok v →
      fetchWithRetry script jitter =
        (.ok v, [2000 + jitter 1, 4000 + jitter 2], 3) ∧
      2000 + jitter 1 < 4000 + jitter 2) ∧
    (∀ c, c ≠ 429 → script 1 = .error c →
      fetchWithRetry script jitter = (.error (.status c), [], 1)) ∧
    (script 1 = .error 429 → script 2 = .error 429 → script 3 = .error 429 →
      (fetchWithRetry script jitter).1 = .error .exhausted ∧
      (fetchWithRetry script jitter).2.2 = 3) := by
  refine ⟨fun v h1 h2 h3 => ⟨?_, ?_⟩, fun c hc h1 => ?_, fun h1 h2 h3 => ?_⟩
  · simp only [fetchWithRetry, fetchGo, h1, h2, h3, baseDelay]
    norm_num
  · have := hj 1
    omega
  · simp only [fetchWithRetry, fetchGo, h1]
    rw [if_neg hc]
  · simp only [fetchWithRetry, fetchGo, h1, h2, h3, baseDelay]
    norm_num

/-- Witness for `retry_policy_behavior`: a concrete script answering
429, 429 then `ok 7` with constant jitter 100, a concrete immediate
non-429 failure, and a concrete triple-429 script. -/
theorem retry_policy_behavior_witness :
    (fetchWithRetry (fun n => if n ≤ 2 then (.error 429 : Except Nat Nat) else .ok 7)
        (fun _ => 100) = (.ok 7, [2100, 4100], 3) ∧ 2100 < 4100) ∧
    fetchWithRetry (fun _ => (.error 500 : Except Nat Nat)) (fun _ => 100) =
      (.error (.status 500), [], 1) ∧
    ((fetchWithRetry (fun _ => (.error 429 : Except Nat Nat)) (fun _ => 100)).1 =
        .error .exhausted ∧
      (fetchWithRetry (fun _ => (.error 429 : Except Nat Nat)) (fun _ => 100)).2.2 = 3) := by
  refine ⟨⟨?_, by norm_num⟩, ?_, ?_⟩
  · have h := ((retry_policy_behavior
      (fun n => if n ≤ 2 then (.error 429 : Except Nat Nat) else .ok 7)
      (fun _ => 100) (fun _ => by norm_num)).1 7 rfl rfl rfl).1
    simpa using h
  · exact (retry_policy_behavior (fun _ => (.error 500 : Except Nat Nat))
      (fun _ => 100) (fun _ => by norm_num)).2.1 500 (by norm_num) rfl
  · exact (retry_policy_behavior (fun _ => (.error 429 : Except Nat Nat))
      (fun _ => 100) (fun _ => by norm_num)).2.2 rfl rfl rfl

/-! ## Claim C7 — idempotent due-date placement -/

/-- C7: in `handleDueDateListMovement` of `src/unnamed/part_008`
(lines 133–226), when the card resolves to a due-date tier whose tracked
list is the list the card is already on (`fullCard.idList === targetListId`,
lines 209–214), the relocation issues zero `updateCard` calls — the only
remote request is the initial card fetch.  In particular a second run on an
unchanged card after a relocation is a no-op. -/
theorem due_date_relocation_idempotent (env : Env) (midnight : Int → Int)
    (st : SyncState) (card : CardStub) (boardId : String)
    (fullCard : FullCard) (due : String) (tier : ListPriority) (targetListId : String)
    (hfc : env.getCard card.id = .ok fullCard)
    (hdue : fullCard.due = some due)
    (htier : selectTierCascade
      (daysDifference (midnight (env.dateMs due) - midnight env.nowMs)) = some tier)
    (hlist : mapGet st.listMapping (boardId ++ "-" ++ tier.name) = some targetListId)
    (hplaced : fullCard.idList = targetListId) :
    P8.handleDueDateListMovement env midnight st card boardId = [.getCard card.id] ∧
    (P8.handleDueDateListMovement env midnight st card boardId).countP
      Call.isUpdateCard = 0 := by
  have htrace : P8.handleDueDateListMovement env midnight st card boardId =
      [.getCard card.id] := by
    simp only [P8.handleDueDateListMovement, hfc, hdue, htier, hlist, hplaced, if_pos]
  refine ⟨htrace, ?_⟩
  rw [htrace]
  simp [List.countP_cons, Call.isUpdateCard]

/-- Witness for `due_date_relocation_idempotent`: the fixture card is
already on list `list-v`, which is what the "Vandaag" tier resolves to on
board `boardX`. -/
theorem due_date_relocation_idempotent_witness :
    P8.handleDueDateListMovement baseEnv (fun t => t)
      ⟨[("boardX-Vandaag", "list-v")], []⟩ ⟨"card1", "Task"⟩ "boardX" =
      [.getCard "card1"] ∧
    (P8.handleDueDateListMovement baseEnv (fun t => t)
      ⟨[("boardX-Vandaag", "list-v")], []⟩ ⟨"card1", "Task"⟩ "boardX").countP
      Call.isUpdateCard = 0 :=
  due_date_relocation_idempotent baseEnv (fun t => t)
    ⟨[("boardX-Vandaag", "list-v")], []⟩ ⟨"card1", "Task"⟩ "boardX"
    okFullCard "2025-01-01" ⟨"Vandaag", 0⟩ "list-v"
    rfl rfl (by decide) (by decide) rfl

/-! ## Map lemmas -/

theorem mapGet_mapDelete (m : List (String × String)) (k : String) :
    mapGet (mapDelete m k) k = none := by
  induction m with
  | nil => rfl
  | cons e rest ih =>
    simp only [mapDelete, List.filter_cons] at ih ⊢
    by_cases h : e.1 = k
    · simpa [h] using ih
    · simpa [mapGet, List.find?_cons, h] using ih

theorem mapGet_mapSet_self (m : List (String × String)) (k v : String) :
    mapGet (mapSet m k v) k = some v := by
  induction m with
  | nil => simp [mapSet, mapGet, List.find?_cons]
  | cons e rest ih =>
    by_cases h : e.1 = k
    · simp [mapSet, h, mapGet, List.find?_cons]
    · simp only [mapSet, if_neg h]
      simpa [mapGet, List.find?_cons, h] using ih

/-! ## Claim C4 — leaving tracked territory deletes the mirror; returning
creates a fresh one -/

/-- C4, for `handleCardMove` of `src/trello-sync.js` (lines 145–234) and
`deleteMirroredCard` (lines 335–343):

* a move of a mapped card to an untracked list deletes the mirrored card
  and removes the `cardMapping` entry;
* a subsequent move back into a tracked list runs the create path and the
  mapping then holds exactly the id returned by the remote create — so if
  the remote assigns a fresh id, the old mirrored-card id is not preserved;
* with no mapping entry and an untracked target list, `handleCardMove`
  issues no remote calls at all. -/
theorem untracked_delete_then_tracked_recreate :
    (∀ (env : Env) (st : SyncState) (card : CardStub) (b : Board) (l : TList) (m : String),
      listNames.contains l.name = false →
      mapGet st.cardMapping (b.id ++ "-" ++ card.id) = some m →
      env.deleteCard m = .ok () →
      Sync.handleCardMove env st card b l =
        ({ st with cardMapping := mapDelete st.cardMapping (b.id ++ "-" ++ card.id) },
          [.deleteCard m], .ok ()) ∧
      mapGet (Sync.handleCardMove env st card b l).1.cardMapping
        (b.id ++ "-" ++ card.id) = none) ∧
    (∀ (env : Env) (st : SyncState) (card : CardStub) (b : Board) (l : TList)
        (fc : FullCard) (aggId : String) (labels : List TLabel)
        (originLabel : TLabel) (newId : String),
      listNames.contains l.name = true → l.name ≠ "Inbox" →
      mapGet st.cardMapping (b.id ++ "-" ++ card.id) = none →
      env.getCard card.id = .ok fc →
      mapGet st.listMapping ("aggregate-" ++ l.name) = some aggId →
      env.getLabels = .ok labels →
      labels.find? (fun lb => lb.name = "Origin:" ++ b.name) = some originLabel →
      env.createCard = .ok newId →
      (Sync.handleCardMove env st card b l).1.cardMapping =
        mapSet st.cardMapping (b.id ++ "-" ++ card.id) newId ∧
      (Sync.handleCardMove env st card b l).2.2 = .ok () ∧
      mapGet (Sync.handleCardMove env st card b l).1.cardMapping
        (b.id ++ "-" ++ card.id) = some newId ∧
      (∀ mOld, newId ≠ mOld →
        mapGet (Sync.handleCardMove env st card b l).1.cardMapping
          (b.id ++ "-" ++ card.id) ≠ some mOld)) ∧
    (∀ (env : Env) (st : SyncState) (card : CardStub) (b : Board) (l : TList),
      listNames.contains l.name = false →
      mapGet st.cardMapping (b.id ++ "-" ++ card.id) = none →
      Sync.handleCardMove env st card b l = (st, [], .ok ())) := by
  refine ⟨?_, ?_, ?_⟩
  · intro env st card b l m hun hmap hdel
    have hni : l.name ≠ "Inbox" := by
      intro h
      rw [h] at hun
      simp [listNames] at hun
    have hmem : l.name ∉ listNames := by simpa using hun
    have hrun : Sync.handleCardMove env st card b l =
        ({ st with cardMapping := mapDelete st.cardMapping (b.id ++ "-" ++ card.id) },
          [.deleteCard m], .ok ()) := by
      simp [Sync.handleCardMove, Sync.handleCardMoveBody, Sync.deleteMirroredCard,
        if_neg hni, hmap, hmem, hdel]
    refine ⟨hrun, ?_⟩
    rw [hrun]
    exact mapGet_mapDelete _ _
  · intro env st card b l fc aggId labels originLabel newId ht hni hmap hfc hagg hlabels hfind hcreate
    have hrun : (Sync.handleCardMove env st card b l).1.cardMapping =
        mapSet st.cardMapping (b.id ++ "-" ++ card.id) newId ∧
        (Sync.handleCardMove env st card b l).2.2 = .ok () := by
      have hmem : l.name ∈ listNames := by simpa using ht
      simp [Sync.handleCardMove, Sync.handleCardMoveBody, Sync.createMirroredCard,
        if_neg hni, hmap, hmem, hfc, hagg, hlabels, hfind, hcreate]
    refine ⟨hrun.1, hrun.2, ?_, ?_⟩
    · rw [hrun.1]
      exact mapGet_mapSet_self _ _ _
    · intro mOld hne
      rw [hrun.1, mapGet_mapSet_self]
      exact fun h => hne (Option.some.inj h)
  · intro env st card b l hun hmap
    have hni : l.name ≠ "Inbox" := by
      intro h
      rw [h] at hun
      simp [listNames] at hun
    have hmem : l.name ∉ listNames := by simpa using hun
    simp [Sync.handleCardMove, Sync.handleCardMoveBody, if_neg hni, hmap, hmem]

/-- Witness for `untracked_delete_then_tracked_recreate`: card `c1` of
board `b1` with mirror `m1` moved to the untracked list "Weird" (mirror
deleted, mapping cleared), then moved into the tracked list "Vandaag"
(mapping becomes the freshly created id `mirror-new`); and a card with no
mapping moved to "Weird" produces no calls. -/
theorem untracked_delete_then_tracked_recreate_witness :
    (Sync.handleCardMove baseEnv ⟨[], [("b1-c1", "m1")]⟩ ⟨"c1", "Task"⟩
        ⟨"b1", "prive"⟩ ⟨"Weird"⟩ =
      (⟨[], []⟩, [.deleteCard "m1"], .ok ())) ∧
    (mapGet (Sync.handleCardMove baseEnv
        ⟨[("aggregate-Vandaag", "agg-v")], []⟩ ⟨"c1", "Task"⟩
        ⟨"b1", "prive"⟩ ⟨"Vandaag"⟩).1.cardMapping "b1-c1" = some "mirror-new" ∧
      mapGet (Sync.handleCardMove baseEnv
        ⟨[("aggregate-Vandaag", "agg-v")], []⟩ ⟨"c1", "Task"⟩
        ⟨"b1", "prive"⟩ ⟨"Vandaag"⟩).1.cardMapping "b1-c1" ≠ some "m1") ∧
    Sync.handleCardMove baseEnv ⟨[], []⟩ ⟨"c1", "Task"⟩ ⟨"b1", "prive"⟩ ⟨"Weird"⟩ =
      (⟨[], []⟩, [], .ok ()) := by
  have h1 := untracked_delete_then_tracked_recreate.1 baseEnv
    ⟨[], [("b1-c1", "m1")]⟩ ⟨"c1", "Task"⟩ ⟨"b1", "prive"⟩ ⟨"Weird"⟩ "m1"
    (by decide) (by decide) rfl
  have h2 := untracked_delete_then_tracked_recreate.2.1 baseEnv
    ⟨[("aggregate-Vandaag", "agg-v")], []⟩ ⟨"c1", "Task"⟩ ⟨"b1", "prive"⟩
    ⟨"Vandaag"⟩ okFullCard "agg-v" [⟨"lab-prive", "Origin:prive"⟩]
    ⟨"lab-prive", "Origin:prive"⟩ "mirror-new"
    (by decide) (by decide) (by decide) rfl (by decide) rfl (by decide) rfl
  have h3 := untracked_delete_then_tracked_recreate.2.2 baseEnv
    ⟨[], []⟩ ⟨"c1", "Task"⟩ ⟨"b1", "prive"⟩ ⟨"Weird"⟩ (by decide) (by decide)
  exact ⟨by simpa using h1.1, ⟨h2.2.2.1, h2.2.2.2 "m1" (by decide)⟩, h3⟩

/-! ## Claim C6 — 404 on update/delete of a mirror (corrected)

`deleteMirroredCard` (`src/trello-sync.js` lines 335–343) runs
`this.cardMapping.delete(cardMappingKey)` only after `deleteCard` resolves;
when the remote delete rejects with 404 the mapping entry survives, and the
`catch` of `handleCardMove` (lines 217–232) instead attempts one recreation
of the mirror. -/

/-- Counterexample to C6 as stated: a mapped card (`b1-c1 ↦ m1`) moved to
the untracked list "Weird" while the remote delete returns 404.  The claim
says the CardMapping entry is cleared; in fact the run ends with the entry
still present (`some "m1"`), the recreation attempt having failed on the
unresolvable aggregate list. -/
theorem delete_404_keeps_mapping_counterexample :
    (Sync.handleCardMove { baseEnv with deleteCard := fun _ => .error (some 404) }
        ⟨[], [("b1-c1", "m1")]⟩ ⟨"c1", "Task"⟩ ⟨"b1", "prive"⟩ ⟨"Weird"⟩).2.2 =
      .error (some 404) ∧
    ¬ (mapGet (Sync.handleCardMove
        { baseEnv with deleteCard := fun _ => .error (some 404) }
        ⟨[], [("b1-c1", "m1")]⟩ ⟨"c1", "Task"⟩ ⟨"b1", "prive"⟩ ⟨"Weird"⟩).1.cardMapping
      "b1-c1" = none) ∧
    mapGet (Sync.handleCardMove { baseEnv with deleteCard := fun _ => .error (some 404) }
        ⟨[], [("b1-c1", "m1")]⟩ ⟨"c1", "Task"⟩ ⟨"b1", "prive"⟩ ⟨"Weird"⟩).1.cardMapping
      "b1-c1" = some "m1" :=
  ⟨rfl, fun h => Option.noConfusion h, rfl⟩

/-- C6 as amended: on an HTTP 404 from the remote delete or update of a
mirrored card, `handleCardMove` of `src/trello-sync.js` makes exactly one
recreation attempt (one `createCard` request at most) before rethrowing.
The CardMapping entry is not cleared by the failed delete: it survives when
the recreation fails, and is overwritten with the freshly created mirror id
when the recreation succeeds; the entry is removed only when the remote
delete succeeds. -/
theorem mirror_404_recreate_once :
    (∀ (env : Env) (st : SyncState) (card : CardStub) (b : Board) (l : TList)
        (m : String) (fc : FullCard) (aggId : String) (labels : List TLabel)
        (originLabel : TLabel) (newId : String),
      listNames.contains l.name = false →
      mapGet st.cardMapping (b.id ++ "-" ++ card.id) = some m →
      env.deleteCard m = .error (some 404) →
      env.getCard card.id = .ok fc →
      mapGet st.listMapping ("aggregate-" ++ l.name) = some aggId →
      env.getLabels = .ok labels →
      labels.find? (fun lb => lb.name = "Origin:" ++ b.name) = some originLabel →
      env.createCard = .ok newId →
      mapGet (Sync.handleCardMove env st card b l).1.cardMapping
        (b.id ++ "-" ++ card.id) = some newId ∧
      ((Sync.handleCardMove env st card b l).2.1.countP Call.isCreateCard = 1 ∧
        (Sync.handleCardMove env st card b l).2.2 = .error (some 404))) ∧
    (∀ (env : Env) (st : SyncState) (card : CardStub) (b : Board) (l : TList)
        (m : String) (fc : FullCard),
      listNames.contains l.name = false →
      mapGet st.cardMapping (b.id ++ "-" ++ card.id) = some m →
      env.deleteCard m = .error (some 404) →
      env.getCard card.id = .ok fc →
      mapGet st.listMapping ("aggregate-" ++ l.name) = none →
      mapGet (Sync.handleCardMove env st card b l).1.cardMapping
        (b.id ++ "-" ++ card.id) = some m ∧
      ((Sync.handleCardMove env st card b l).2.1.countP Call.isCreateCard = 0 ∧
        (Sync.handleCardMove env st card b l).2.2 = .error (some 404))) ∧
    (∀ (env : Env) (st : SyncState) (card : CardStub) (b : Board) (l : TList)
        (m : String),
      listNames.contains l.name = false →
      mapGet st.cardMapping (b.id ++ "-" ++ card.id) = some m →
      env.deleteCard m = .ok () →
      mapGet (Sync.handleCardMove env st card b l).1.cardMapping
        (b.id ++ "-" ++ card.id) = none) ∧
    (∀ (env : Env) (st : SyncState) (card : CardStub) (b : Board) (l : TList)
        (m : String) (fc : FullCard) (aggId : String) (labels : List TLabel)
        (originLabel : TLabel) (newId : String),
      listNames.contains l.name = true → l.name ≠ "Inbox" →
      mapGet st.cardMapping (b.id ++ "-" ++ card.id) = some m →
      (∀ u, env.updateCard m u = .error (some 404)) →
      env.getCard card.id = .ok fc →
      mapGet st.listMapping ("aggregate-" ++ l.name) = some aggId →
      env.getLabels = .ok labels →
      labels.find? (fun lb => lb.name = "Origin:" ++ b.name) = some originLabel →
      env.createCard = .ok newId →
      mapGet (Sync.handleCardMove env st card b l).1.cardMapping
        (b.id ++ "-" ++ card.id) = some newId ∧
      ((Sync.handleCardMove env st card b l).2.1.countP Call.isCreateCard = 1 ∧
        (Sync.handleCardMove env st card b l).2.2 = .error (some 404))) := by
  refine ⟨?_, ?_, ?_, ?_⟩
  · intro env st card b l m fc aggId labels originLabel newId
      hun hmap hdel hfc hagg hlabels hfind hcreate
    have hmem : l.name ∉ listNames := by simpa using hun
    have hni : l.name ≠ "Inbox" := by
      intro h
      rw [h] at hun
      simp [listNames] at hun
    have hrun : (Sync.handleCardMove env st card b l).1.cardMapping =
        mapSet st.cardMapping (b.id ++ "-" ++ card.id) newId ∧
        ((Sync.handleCardMove env st card b l).2.1.countP Call.isCreateCard = 1 ∧
          (Sync.handleCardMove env st card b l).2.2 = .error (some 404)) := by
      simp [Sync.handleCardMove, Sync.handleCardMoveBody, Sync.createMirroredCard,
        Sync.deleteMirroredCard, if_neg hni, hmap, hmem, hdel, hfc, hagg, hlabels,
        hfind, hcreate, List.countP_cons, Call.isCreateCard]
    exact ⟨by rw [hrun.1]; exact mapGet_mapSet_self _ _ _, hrun.2⟩
  · intro env st card b l m fc hun hmap hdel hfc hagg
    have hmem : l.name ∉ listNames := by simpa using hun
    have hni : l.name ≠ "Inbox" := by
      intro h
      rw [h] at hun
      simp [listNames] at hun
    have hrun : (Sync.handleCardMove env st card b l).1.cardMapping =
        st.cardMapping ∧
        ((Sync.handleCardMove env st card b l).2.1.countP Call.isCreateCard = 0 ∧
          (Sync.handleCardMove env st card b l).2.2 = .error (some 404)) := by
      simp [Sync.handleCardMove, Sync.handleCardMoveBody, Sync.createMirroredCard,
        Sync.deleteMirroredCard, if_neg hni, hmap, hmem, hdel, hfc, hagg,
        List.countP_cons, Call.isCreateCard]
    exact ⟨by rw [hrun.1]; exact hmap, hrun.2⟩
  · intro env st card b l m hun hmap hdel
    have hmem : l.name ∉ listNames := by simpa using hun
    have hni : l.name ≠ "Inbox" := by
      intro h
      rw [h] at hun
      simp [listNames] at hun
    have hrun : (Sync.handleCardMove env st card b l).1.cardMapping =
        mapDelete st.cardMapping (b.id ++ "-" ++ card.id) := by
      simp [Sync.handleCardMove, Sync.handleCardMoveBody, Sync.deleteMirroredCard,
        if_neg hni, hmap, hmem, hdel]
    rw [hrun]
    exact mapGet_mapDelete _ _
  · intro env st card b l m fc aggId labels originLabel newId
      ht hni hmap hupd hfc hagg hlabels hfind hcreate
    have hmem : l.name ∈ listNames := by simpa using ht
    have hrun : (Sync.handleCardMove env st card b l).1.cardMapping =
        mapSet st.cardMapping (b.id ++ "-" ++ card.id) newId ∧
        ((Sync.handleCardMove env st card b l).2.1.countP Call.isCreateCard = 1 ∧
          (Sync.handleCardMove env st card b l).2.2 = .error (some 404)) := by
      simp [Sync.handleCardMove, Sync.handleCardMoveBody, Sync.createMirroredCard,
        Sync.updateMirroredCard, if_neg hni, hmap, hmem, hupd, hfc, hagg, hlabels,
        hfind, hcreate, List.countP_cons, Call.isCreateCard]
    exact ⟨by rw [hrun.1]; exact mapGet_mapSet_self _ _ _, hrun.2⟩

/-- Witness for `mirror_404_recreate_once`, exercising all four branches on
concrete states: a 404 delete with a successful recreation, a 404 delete
with a failed recreation, a successful delete, and a 404 update with a
successful recreation. -/
theorem mirror_404_recreate_once_witness :
    (mapGet (Sync.handleCardMove { baseEnv with deleteCard := fun _ => .error (some 404) }
        ⟨[("aggregate-Weird", "agg-w")], [("b1-c1", "m1")]⟩ ⟨"c1", "Task"⟩
        ⟨"b1", "prive"⟩ ⟨"Weird"⟩).1.cardMapping "b1-c1" = some "mirror-new") ∧
    (mapGet (Sync.handleCardMove { baseEnv with deleteCard := fun _ => .error (some 404) }
        ⟨[], [("b1-c1", "m1")]⟩ ⟨"c1", "Task"⟩
        ⟨"b1", "prive"⟩ ⟨"Weird"⟩).1.cardMapping "b1-c1" = some "m1") ∧
    (mapGet (Sync.handleCardMove baseEnv
        ⟨[], [("b1-c1", "m1")]⟩ ⟨"c1", "Task"⟩
        ⟨"b1", "prive"⟩ ⟨"Weird"⟩).1.cardMapping "b1-c1" = none) ∧
    (mapGet (Sync.handleCardMove { baseEnv with updateCard := fun _ _ => .error (some 404) }
        ⟨[("aggregate-Vandaag", "agg-v")], [("b1-c1", "m1")]⟩ ⟨"c1", "Task"⟩
        ⟨"b1", "prive"⟩ ⟨"Vandaag"⟩).1.cardMapping "b1-c1" = some "mirror-new") := by
  refine ⟨?_, ?_, ?_, ?_⟩
  · exact (mirror_404_recreate_once.1
      { baseEnv with deleteCard := fun _ => .error (some 404) }
      ⟨[("aggregate-Weird", "agg-w")], [("b1-c1", "m1")]⟩ ⟨"c1", "Task"⟩
      ⟨"b1", "prive"⟩ ⟨"Weird"⟩ "m1" okFullCard "agg-w"
      [⟨"lab-prive", "Origin:prive"⟩] ⟨"lab-prive", "Origin:prive"⟩ "mirror-new"
      (by decide) (by decide) rfl rfl (by decide) rfl (by decide) rfl).1
  · exact (mirror_404_recreate_once.2.1
      { baseEnv with deleteCard := fun _ => .error (some 404) }
      ⟨[], [("b1-c1", "m1")]⟩ ⟨"c1", "Task"⟩ ⟨"b1", "prive"⟩ ⟨"Weird"⟩ "m1"
      okFullCard (by decide) (by decide) rfl rfl (by decide)).1
  · exact mirror_404_recreate_once.2.2.1 baseEnv
      ⟨[], [("b1-c1", "m1")]⟩ ⟨"c1", "Task"⟩ ⟨"b1", "prive"⟩ ⟨"Weird"⟩ "m1"
      (by decide) (by decide) rfl
  · exact (mirror_404_recreate_once.2.2.2
      { baseEnv with updateCard := fun _ _ => .error (some 404) }
      ⟨[("aggregate-Vandaag", "agg-v")], [("b1-c1", "m1")]⟩ ⟨"c1", "Task"⟩
      ⟨"b1", "prive"⟩ ⟨"Vandaag"⟩ "m1" okFullCard "agg-v"
      [⟨"lab-prive", "Origin:prive"⟩] ⟨"lab-prive", "Origin:prive"⟩ "mirror-new"
      (by decide) (by decide) (by decide) (fun u => rfl) rfl (by decide) rfl
      (by decide) rfl).1

/-! ## String lemmas for the provenance marker -/

theorem findMarkerCapture_of_isPrefix (l : List Char)
    (h : markerChars.isPrefixOf l = true) :
    findMarkerCapture l =
      some ((l.drop markerChars.length).takeWhile (fun ch => ch ≠ '\n')) := by
  cases l with
  | nil => exact absurd h (by decide)
  | cons c rest =>
    simp only [findMarkerCapture]
    rw [h]
    simp

theorem takeWhile_until_newline (xs ys : List Char) (h : ∀ c ∈ xs, c ≠ '\n') :
    (xs ++ '\n' :: ys).takeWhile (fun ch => ch ≠ '\n') = xs := by
  induction xs with
  | nil => simp
  | cons x xs ih =>
    have hx : x ≠ '\n' := h x (List.mem_cons_self x xs)
    have hxs : ∀ c ∈ xs, c ≠ '\n' := fun c hc => h c (List.mem_cons_of_mem x hc)
    rw [List.cons_append, List.takeWhile_cons, if_pos (decide_eq_true hx), ih hxs]

/-- Writing the marker description and re-parsing it with the provenance
regex recovers the board name, for any newline-free board name and any
original description. -/
theorem parseOriginalBoard_mkMirrorDesc (name d : String)
    (h : ∀ c ∈ name.data, c ≠ '\n') :
    parseOriginalBoard (mkMirrorDesc name d) = some name := by
  have h2 : ("\n\n" : String).data = ['\n', '\n'] := rfl
  have hdata : (mkMirrorDesc name d).data =
      markerChars ++ (name.data ++ '\n' :: '\n' :: d.data) := by
    simp [mkMirrorDesc, markerChars, String.data_append, h2]
  have hpre : markerChars.isPrefixOf (mkMirrorDesc name d).data = true := by
    rw [hdata, List.isPrefixOf_iff_prefix]
    exact List.prefix_append _ _
  rw [parseOriginalBoard, findMarkerCapture_of_isPrefix _ hpre, hdata, List.drop_left,
    takeWhile_until_newline _ _ h]
  rfl

theorem splitOnDash_no_dash (cs : List Char) (h : '-' ∉ cs) :
    splitOnDash cs = [cs] := by
  induction cs with
  | nil => rfl
  | cons c rest ih =>
    have hc : c ≠ '-' := fun hh => h (hh ▸ List.mem_cons_self c rest)
    have hrest : '-' ∉ rest := fun hh => h (List.mem_cons_of_mem c hh)
    simp [splitOnDash, hc, ih hrest]

theorem splitOnDash_append (xs ys : List Char) (h : '-' ∉ xs) :
    splitOnDash (xs ++ '-' :: ys) = xs :: splitOnDash ys := by
  induction xs with
  | nil => simp [splitOnDash]
  | cons x xs ih =>
    have hx : x ≠ '-' := fun hh => h (hh ▸ List.mem_cons_self x xs)
    have hxs : '-' ∉ xs := fun hh => h (List.mem_cons_of_mem x hh)
    simp [splitOnDash, hx, ih hxs]

/-- `"{boardId}-{cardId}".split('-')` destructures back to the two ids when
neither contains a dash (Trello ids are dash-free hex strings). -/
theorem splitKey_append (b c : String) (hb : '-' ∉ b.data) (hc : '-' ∉ c.data) :
    splitKey (b ++ "-" ++ c) = (b, c) := by
  have h1 : ("-" : String).data = ['-'] := rfl
  have hdata : (b ++ "-" ++ c).data = b.data ++ '-' :: c.data := by
    simp [String.data_append, h1]
  rw [splitKey, hdata, splitOnDash_append _ _ hb, splitOnDash_no_dash _ hc]
  rfl

/-! ## Claim C5 — provenance round-trip -/

/-- C5: mirrored-card descriptions and the provenance marker round-trip.

1. For every configured source board and every description, parsing the
   marker description written by `createMirroredCard` recovers the board
   name.
2. The create path issues a `createCard` whose description is exactly
   `Original board: <name>\n\n<desc>`.
3. A tracked-to-tracked `handleCardMove` with a live mapping updates the
   mirror, setting its list to the aggregate list of the target name.
4. The reverse scan of `cardMapping` recovers the source card id from the
   aggregate card id for a dash-free mapping key.
5. `handleAggregateCardMove` on a mirror whose description carries the
   marker of a configured board, with a mapping entry and a matching source
   list, updates exactly the original card to that source list. -/
theorem provenance_round_trip :
    (∀ B ∈ sourceBoards, ∀ d : String,
      parseOriginalBoard (mkMirrorDesc B.name d) = some B.name) ∧
    (∀ (env : Env) (st : SyncState) (card : CardStub) (b : Board) (l : TList)
        (fc : FullCard) (aggId : String) (labels : List TLabel)
        (originLabel : TLabel) (newId : String),
      env.getCard card.id = .ok fc → fc.labels = none →
      mapGet st.listMapping ("aggregate-" ++ l.name) = some aggId →
      env.getLabels = .ok labels →
      labels.find? (fun lb => lb.name = "Origin:" ++ b.name) = some originLabel →
      env.createCard = .ok newId →
      Sync.createMirroredCard env st card b l =
        ([.getCard card.id, .getLabels aggregateBoard,
          .createCard aggId card.name (mkMirrorDesc b.name fc.desc) fc.due
            [originLabel.id]], .ok newId)) ∧
    (∀ (env : Env) (st : SyncState) (card : CardStub) (b : Board) (l : TList)
        (fc : FullCard) (aggId : String) (labels : List TLabel)
        (originLabel : TLabel) (m : String),
      listNames.contains l.name = true → l.name ≠ "Inbox" →
      mapGet st.cardMapping (b.id ++ "-" ++ card.id) = some m →
      env.getCard card.id = .ok fc → fc.labels = none →
      mapGet st.listMapping ("aggregate-" ++ l.name) = some aggId →
      env.getLabels = .ok labels →
      labels.find? (fun lb => lb.name = "Origin:" ++ b.name) = some originLabel →
      env.updateCard m (mirrorUpd aggId [originLabel.id] fc.due card.name
        (mkMirrorDesc b.name fc.desc)) = .ok () →
      Sync.handleCardMove env st card b l =
        (st, [.getCard card.id, .getLabels aggregateBoard,
          .updateCard m (mirrorUpd aggId [originLabel.id] fc.due card.name
            (mkMirrorDesc b.name fc.desc))], .ok ())) ∧
    (∀ bid cid M : String, '-' ∉ bid.data → '-' ∉ cid.data →
      Sync.findOriginalCardId [(bid ++ "-" ++ cid, M)] M bid = some cid) ∧
    (∀ (env : Env) (st : SyncState) (card : AggCard) (l : TList) (B : Board)
        (origId srcListId : String),
      card.desc ≠ "" →
      parseOriginalBoard card.desc = some B.name →
      sourceBoards.find? (fun b2 => b2.name = B.name) = some B →
      Sync.findOriginalCardId st.cardMapping card.id B.id = some origId →
      mapGet st.listMapping (B.id ++ "-" ++ l.name) = some srcListId →
      Sync.handleAggregateCardMove env st card l =
        (st, [.updateCard origId { idList := some srcListId }])) := by
  refine ⟨?_, ?_, ?_, ?_, ?_⟩
  · intro B hB d
    simp only [sourceBoards, List.mem_cons, List.not_mem_nil, or_false] at hB
    rcases hB with rfl | rfl | rfl | rfl <;>
      exact parseOriginalBoard_mkMirrorDesc _ d (by decide)
  · intro env st card b l fc aggId labels originLabel newId hfc hfcl hagg hlabels hfind hcreate
    simp [Sync.createMirroredCard, hfc, hfcl, hagg, hlabels, hfind, hcreate]
  · intro env st card b l fc aggId labels originLabel m ht hni hmap hfc hfcl hagg hlabels hfind hupd
    have hmem : l.name ∈ listNames := by simpa using ht
    simp only [mirrorUpd] at hupd
    simp [Sync.handleCardMove, Sync.handleCardMoveBody, Sync.updateMirroredCard,
      mirrorUpd, if_neg hni, hmap, hmem, hfc, hfcl, hagg, hlabels, hfind, hupd]
  · intro bid cid M hb hc
    simp [Sync.findOriginalCardId, List.find?_cons, splitKey_append bid cid hb hc]
  · intro env st card l B origId srcListId hdesc hparse hfindB hscan hlist
    have hbody : Sync.aggregateMoveBody env st card l =
        ([.updateCard origId { idList := some srcListId }],
          match env.updateCard origId { idList := some srcListId } with
          | .ok _ => .ok ()
          | .error e => .error e) := by
      simp [Sync.aggregateMoveBody, if_neg hdesc, hparse, hfindB, hscan, hlist]
      rcases env.updateCard origId { idList := some srcListId } with e | u <;> simp
    rcases hu : env.updateCard origId { idList := some srcListId } with e | u <;>
      simp [Sync.handleAggregateCardMove, hbody, hu]

/-- Witness for `provenance_round_trip`, instantiated on the configured
board "prive": parse of a written marker, a concrete create, a concrete
tracked-to-tracked update of mirror `m1`, the reverse scan on the key
`b1-c1`, and a concrete reverse propagation updating card `c1`. -/
theorem provenance_round_trip_witness :
    parseOriginalBoard (mkMirrorDesc "prive" "notes") = some "prive" ∧
    Sync.createMirroredCard baseEnv ⟨[("aggregate-Vandaag", "agg-v")], []⟩
      ⟨"c1", "Task"⟩ ⟨"b1", "prive"⟩ ⟨"Vandaag"⟩ =
      ([.getCard "c1", .getLabels aggregateBoard,
        .createCard "agg-v" "Task" (mkMirrorDesc "prive" "") (some "2025-01-01")
          ["lab-prive"]], .ok "mirror-new") ∧
    Sync.handleCardMove baseEnv
      ⟨[("aggregate-Vandaag", "agg-v")], [("b1-c1", "m1")]⟩ ⟨"c1", "Task"⟩
      ⟨"b1", "prive"⟩ ⟨"Vandaag"⟩ =
      (⟨[("aggregate-Vandaag", "agg-v")], [("b1-c1", "m1")]⟩,
        [.getCard "c1", .getLabels aggregateBoard,
          .updateCard "m1" (mirrorUpd "agg-v" ["lab-prive"] (some "2025-01-01") "Task"
            (mkMirrorDesc "prive" ""))], .ok ()) ∧
    Sync.findOriginalCardId [("b1-c1", "m1")] "m1" "b1" = some "c1" ∧
    Sync.handleAggregateCardMove baseEnv
      ⟨[("67aca823198750b8d3e332a4-Vandaag", "src-v")], [("67aca823198750b8d3e332a4-c1", "m1")]⟩
      ⟨"m1", "Task", mkMirrorDesc "prive" "notes"⟩ ⟨"Vandaag"⟩ =
      (⟨[("67aca823198750b8d3e332a4-Vandaag", "src-v")], [("67aca823198750b8d3e332a4-c1", "m1")]⟩,
        [.updateCard "c1" { idList := some "src-v" }]) := by
  refine ⟨?_, ?_, ?_, ?_, ?_⟩
  · exact provenance_round_trip.1 ⟨"67aca823198750b8d3e332a4", "prive"⟩ (by decide) "notes"
  · exact provenance_round_trip.2.1 baseEnv ⟨[("aggregate-Vandaag", "agg-v")], []⟩
      ⟨"c1", "Task"⟩ ⟨"b1", "prive"⟩ ⟨"Vandaag"⟩ okFullCard "agg-v"
      [⟨"lab-prive", "Origin:prive"⟩] ⟨"lab-prive", "Origin:prive"⟩ "mirror-new"
      rfl rfl (by decide) rfl (by decide) rfl
  · exact provenance_round_trip.2.2.1 baseEnv
      ⟨[("aggregate-Vandaag", "agg-v")], [("b1-c1", "m1")]⟩ ⟨"c1", "Task"⟩
      ⟨"b1", "prive"⟩ ⟨"Vandaag"⟩ okFullCard "agg-v"
      [⟨"lab-prive", "Origin:prive"⟩] ⟨"lab-prive", "Origin:prive"⟩ "m1"
      (by decide) (by decide) (by decide) rfl rfl (by decide) rfl (by decide) rfl
  · exact provenance_round_trip.2.2.2.1 "b1" "c1" "m1" (by decide) (by decide)
  · exact provenance_round_trip.2.2.2.2 baseEnv
      ⟨[("67aca823198750b8d3e332a4-Vandaag", "src-v")], [("67aca823198750b8d3e332a4-c1", "m1")]⟩
      ⟨"m1", "Task", mkMirrorDesc "prive" "notes"⟩ ⟨"Vandaag"⟩
      ⟨"67aca823198750b8d3e332a4", "prive"⟩ "c1" "src-v"
      (by decide) (provenance_round_trip.1 ⟨"67aca823198750b8d3e332a4", "prive"⟩ (by decide) "notes")
      (by decide) (by decide) (by decide)

/-! ## Helper lemmas about `handleAggregateCardMove` -/

/-- The outer `catch` makes `handleAggregateCardMove` return the state
unchanged together with whatever calls the body issued, for every body
outcome. -/
theorem handleAggregateCardMove_eq (env : Env) (st : SyncState) (card : AggCard)
    (l : TList) :
    Sync.handleAggregateCardMove env st card l =
      (st, (Sync.aggregateMoveBody env st card l).1) := by
  rcases h : Sync.aggregateMoveBody env st card l with ⟨calls, r⟩
  cases r <;> simp [Sync.handleAggregateCardMove, h]

/-- Every call trace of `aggregateMoveBody` is one of: nothing, a single
card fetch, a single source-card update, or a fetch followed by an
update. -/
theorem aggregateMoveBody_calls_shape (env : Env) (st : SyncState) (card : AggCard)
    (l : TList) :
    (Sync.aggregateMoveBody env st card l).1 = [] ∨
    (Sync.aggregateMoveBody env st card l).1 = [.getCard card.id] ∨
    (∃ cid u, (Sync.aggregateMoveBody env st card l).1 = [.updateCard cid u]) ∨
    (∃ cid u, (Sync.aggregateMoveBody env st card l).1 =
      [.getCard card.id, .updateCard cid u]) := by
  by_cases hd : card.desc = ""
  · rcases hg : env.getCard card.id with e | fc
    · right; left
      simp [Sync.aggregateMoveBody, hd, hg]
    · rcases hp : parseOriginalBoard fc.desc with _ | n
      · right; left
        simp [Sync.aggregateMoveBody, hd, hg, hp]
      · rcases hf : sourceBoards.find? (fun b => b.name = n) with _ | B
        · right; left
          simp [Sync.aggregateMoveBody, hd, hg, hp, hf]
        · rcases hs : Sync.findOriginalCardId st.cardMapping fc.id B.id with _ | oid
          · right; left
            simp [Sync.aggregateMoveBody, hd, hg, hp, hf, hs]
          · rcases hm : mapGet st.listMapping (B.id ++ "-" ++ l.name) with _ | sid
            · right; left
              simp [Sync.aggregateMoveBody, hd, hg, hp, hf, hs, hm]
            · right; right; right
              refine ⟨oid, { idList := some sid }, ?_⟩
              rcases hu : env.updateCard oid { idList := some sid } with e | u <;>
                simp [Sync.aggregateMoveBody, hd, hg, hp, hf, hs, hm, hu]
  · rcases hp : parseOriginalBoard card.desc with _ | n
    · left
      simp [Sync.aggregateMoveBody, hd, hp]
    · rcases hf : sourceBoards.find? (fun b => b.name = n) with _ | B
      · left
        simp [Sync.aggregateMoveBody, hd, hp, hf]
      · rcases hs : Sync.findOriginalCardId st.cardMapping card.id B.id with _ | oid
        · left
          simp [Sync.aggregateMoveBody, hd, hp, hf, hs]
        · rcases hm : mapGet st.listMapping (B.id ++ "-" ++ l.name) with _ | sid
          · left
            simp [Sync.aggregateMoveBody, hd, hp, hf, hs, hm]
          · right; right; left
            refine ⟨oid, { idList := some sid }, ?_⟩
            rcases hu : env.updateCard oid { idList := some sid } with e | u <;>
              simp [Sync.aggregateMoveBody, hd, hp, hf, hs, hm, hu]

/-! ## Claim C8 — malformed provenance is inert -/

/-- C8: for every aggregate-board card whose effective description lacks
the `Original board:` marker, names a board outside the configured
source-board list, or has no `cardMapping` entry resolving to it,
`handleAggregateCardMove` of `src/trello-sync.js` (lines 392–426) issues no
remote mutation (at most the read-only card fetch), leaves the state
unchanged, and its body finishes without a thrown error, so nothing reaches
the caller.  The fetch-failure path for an empty supplied description is
likewise inert. -/
theorem malformed_provenance_inert :
    (∀ (env : Env) (st : SyncState) (card : AggCard) (l : TList),
      card.desc ≠ "" → parseOriginalBoard card.desc = none →
      Sync.aggregateMoveBody env st card l = ([], .ok ()) ∧
      Sync.handleAggregateCardMove env st card l = (st, [])) ∧
    (∀ (env : Env) (st : SyncState) (card : AggCard) (l : TList) (n : String),
      card.desc ≠ "" → parseOriginalBoard card.desc = some n →
      sourceBoards.find? (fun b => b.name = n) = none →
      Sync.aggregateMoveBody env st card l = ([], .ok ()) ∧
      Sync.handleAggregateCardMove env st card l = (st, [])) ∧
    (∀ (env : Env) (st : SyncState) (card : AggCard) (l : TList) (n : String)
        (B : Board),
      card.desc ≠ "" → parseOriginalBoard card.desc = some n →
      sourceBoards.find? (fun b => b.name = n) = some B →
      Sync.findOriginalCardId st.cardMapping card.id B.id = none →
      Sync.aggregateMoveBody env st card l = ([], .ok ()) ∧
      Sync.handleAggregateCardMove env st card l = (st, [])) ∧
    (∀ (env : Env) (st : SyncState) (card : AggCard) (l : TList) (e : Err),
      card.desc = "" → env.getCard card.id = .error e →
      Sync.aggregateMoveBody env st card l = ([.getCard card.id], .ok ()) ∧
      Sync.handleAggregateCardMove env st card l = (st, [.getCard card.id]) ∧
      Call.isMutation (.getCard card.id) = false) ∧
    (∀ (env : Env) (st : SyncState) (card : AggCard) (l : TList) (fc : FullCard),
      card.desc = "" → env.getCard card.id = .ok fc →
      parseOriginalBoard fc.desc = none →
      Sync.aggregateMoveBody env st card l = ([.getCard card.id], .ok ()) ∧
      Sync.handleAggregateCardMove env st card l = (st, [.getCard card.id])) := by
  refine ⟨?_, ?_, ?_, ?_, ?_⟩
  · intro env st card l hd hp
    have hb : Sync.aggregateMoveBody env st card l = ([], .ok ()) := by
      simp [Sync.aggregateMoveBody, hd, hp]
    exact ⟨hb, by rw [handleAggregateCardMove_eq, hb]⟩
  · intro env st card l n hd hp hf
    have hb : Sync.aggregateMoveBody env st card l = ([], .ok ()) := by
      simp [Sync.aggregateMoveBody, hd, hp, hf]
    exact ⟨hb, by rw [handleAggregateCardMove_eq, hb]⟩
  · intro env st card l n B hd hp hf hs
    have hb : Sync.aggregateMoveBody env st card l = ([], .ok ()) := by
      simp [Sync.aggregateMoveBody, hd, hp, hf, hs]
    exact ⟨hb, by rw [handleAggregateCardMove_eq, hb]⟩
  · intro env st card l e hd hg
    have hb : Sync.aggregateMoveBody env st card l = ([.getCard card.id], .ok ()) := by
      simp [Sync.aggregateMoveBody, hd, hg]
    exact ⟨hb, by rw [handleAggregateCardMove_eq, hb], rfl⟩
  · intro env st card l fc hd hg hp
    have hb : Sync.aggregateMoveBody env st card l = ([.getCard card.id], .ok ()) := by
      simp [Sync.aggregateMoveBody, hd, hg, hp]
    exact ⟨hb, by rw [handleAggregateCardMove_eq, hb]⟩

/-- Witness for `malformed_provenance_inert`: a card with a markerless
description, one naming the unconfigured board "nosuch", one naming
"prive" with an empty mapping, an empty-description card whose fetch
fails, and an empty-description card whose fetched description is
markerless. -/
theorem malformed_provenance_inert_witness :
    (Sync.aggregateMoveBody baseEnv ⟨[], []⟩ ⟨"m1", "Task", "plain text"⟩ ⟨"Vandaag"⟩ =
        ([], .ok ()) ∧
      Sync.handleAggregateCardMove baseEnv ⟨[], []⟩ ⟨"m1", "Task", "plain text"⟩
        ⟨"Vandaag"⟩ = (⟨[], []⟩, [])) ∧
    (Sync.handleAggregateCardMove baseEnv ⟨[], []⟩
        ⟨"m1", "Task", mkMirrorDesc "nosuch" ""⟩ ⟨"Vandaag"⟩ = (⟨[], []⟩, [])) ∧
    (Sync.handleAggregateCardMove baseEnv ⟨[], []⟩
        ⟨"m1", "Task", mkMirrorDesc "prive" ""⟩ ⟨"Vandaag"⟩ = (⟨[], []⟩, [])) ∧
    (Sync.handleAggregateCardMove
        { baseEnv with getCard := fun _ => .error (some 500) } ⟨[], []⟩
        ⟨"m1", "Task", ""⟩ ⟨"Vandaag"⟩ = (⟨[], []⟩, [.getCard "m1"])) ∧
    (Sync.handleAggregateCardMove baseEnv ⟨[], []⟩ ⟨"m1", "Task", ""⟩ ⟨"Vandaag"⟩ =
        (⟨[], []⟩, [.getCard "m1"])) := by
  refine ⟨?_, ?_, ?_, ?_, ?_⟩
  · exact (malformed_provenance_inert.1 baseEnv ⟨[], []⟩ ⟨"m1", "Task", "plain text"⟩
      ⟨"Vandaag"⟩ (by decide) (by decide)).imp id id
  · exact (malformed_provenance_inert.2.1 baseEnv ⟨[], []⟩
      ⟨"m1", "Task", mkMirrorDesc "nosuch" ""⟩ ⟨"Vandaag"⟩ "nosuch" (by decide)
      (by decide) (by decide)).2
  · exact (malformed_provenance_inert.2.2.1 baseEnv ⟨[], []⟩
      ⟨"m1", "Task", mkMirrorDesc "prive" ""⟩ ⟨"Vandaag"⟩ "prive"
      ⟨"67aca823198750b8d3e332a4", "prive"⟩ (by decide) (by decide) (by decide)
      (by decide)).2
  · exact (malformed_provenance_inert.2.2.2.1
      { baseEnv with getCard := fun _ => .error (some 500) } ⟨[], []⟩
      ⟨"m1", "Task", ""⟩ ⟨"Vandaag"⟩ (some 500) rfl rfl).2.1
  · exact (malformed_provenance_inert.2.2.2.2 baseEnv ⟨[], []⟩ ⟨"m1", "Task", ""⟩
      ⟨"Vandaag"⟩ okFullCard rfl rfl (by decide)).2

/-! ## Claim C9 — the reverse direction never creates or deletes -/

/-- C9: for every input, `handleAggregateCardMove` of `src/trello-sync.js`
(lines 370–461) never issues a `createCard`, `createLabel` or `deleteCard`
request, and leaves both in-memory mappings untouched — the reverse
direction only relocates via `updateCard`. -/
theorem aggregate_move_never_creates_or_deletes (env : Env) (st : SyncState)
    (card : AggCard) (l : TList) :
    (Sync.handleAggregateCardMove env st card l).1 = st ∧
    (Sync.handleAggregateCardMove env st card l).1.cardMapping = st.cardMapping ∧
    (Sync.handleAggregateCardMove env st card l).1.listMapping = st.listMapping ∧
    (Sync.handleAggregateCardMove env st card l).2.all
      (fun c => !c.isCreateCard && !c.isDeleteCard && !(Call.isMutation c && !c.isUpdateCard)) = true := by
  rw [handleAggregateCardMove_eq]
  refine ⟨rfl, rfl, rfl, ?_⟩
  rcases aggregateMoveBody_calls_shape env st card l with h | h | ⟨cid, u, h⟩ | ⟨cid, u, h⟩ <;>
    simp [h, Call.isCreateCard, Call.isDeleteCard, Call.isUpdateCard, Call.isMutation]

/-! ## Claim C10 — reverse propagation never rejects -/

/-- C10: `handleAggregateCardMove` of `src/trello-sync.js` (lines 370–461)
resolves normally for every input: the outer `catch` absorbs every failure.
In particular, when the source-card update fails, the inner `catch`
rethrows the error out of the body (lines 444–452), yet the function still
returns normally with the unchanged state — the failure is observable only
in the call trace. -/
theorem aggregate_move_absorbs_failures :
    (∀ (env : Env) (st : SyncState) (card : AggCard) (l : TList),
      ∃ calls, Sync.handleAggregateCardMove env st card l = (st, calls)) ∧
    (∀ (env : Env) (st : SyncState) (card : AggCard) (l : TList) (B : Board)
        (origId srcListId : String) (e : Err),
      card.desc ≠ "" →
      parseOriginalBoard card.desc = some B.name →
      sourceBoards.find? (fun b2 => b2.name = B.name) = some B →
      Sync.findOriginalCardId st.cardMapping card.id B.id = some origId →
      mapGet st.listMapping (B.id ++ "-" ++ l.name) = some srcListId →
      env.updateCard origId { idList := some srcListId } = .error e →
      Sync.aggregateMoveBody env st card l =
        ([.updateCard origId { idList := some srcListId }], .error e) ∧
      Sync.handleAggregateCardMove env st card l =
        (st, [.updateCard origId { idList := some srcListId }])) := by
  refine ⟨fun env st card l => ⟨_, handleAggregateCardMove_eq env st card l⟩, ?_⟩
  intro env st card l B origId srcListId e hdesc hparse hfindB hscan hlist hupd
  have hb : Sync.aggregateMoveBody env st card l =
      ([.updateCard origId { idList := some srcListId }], .error e) := by
    simp [Sync.aggregateMoveBody, if_neg hdesc, hparse, hfindB, hscan, hlist, hupd]
  exact ⟨hb, by rw [handleAggregateCardMove_eq, hb]⟩

/-- Witness for `aggregate_move_absorbs_failures`: a mirror of board
"prive" whose source-card update rejects with HTTP 500; the body rethrows
the error internally while the handler still returns normally. -/
theorem aggregate_move_absorbs_failures_witness :
    (∃ calls, Sync.handleAggregateCardMove baseEnv ⟨[], []⟩ ⟨"m1", "Task", "x"⟩
      ⟨"Vandaag"⟩ = (⟨[], []⟩, calls)) ∧
    Sync.aggregateMoveBody { baseEnv with updateCard := fun _ _ => .error (some 500) }
      ⟨[("67aca823198750b8d3e332a4-Vandaag", "src-v")], [("67aca823198750b8d3e332a4-c1", "m1")]⟩
      ⟨"m1", "Task", mkMirrorDesc "prive" "notes"⟩ ⟨"Vandaag"⟩ =
      ([.updateCard "c1" { idList := some "src-v" }], .error (some 500)) ∧
    Sync.handleAggregateCardMove { baseEnv with updateCard := fun _ _ => .error (some 500) }
      ⟨[("67aca823198750b8d3e332a4-Vandaag", "src-v")], [("67aca823198750b8d3e332a4-c1", "m1")]⟩
      ⟨"m1", "Task", mkMirrorDesc "prive" "notes"⟩ ⟨"Vandaag"⟩ =
      (⟨[("67aca823198750b8d3e332a4-Vandaag", "src-v")], [("67aca823198750b8d3e332a4-c1", "m1")]⟩,
        [.updateCard "c1" { idList := some "src-v" }]) := by
  refine ⟨aggregate_move_absorbs_failures.1 baseEnv ⟨[], []⟩ ⟨"m1", "Task", "x"⟩
    ⟨"Vandaag"⟩, ?_⟩
  have h := aggregate_move_absorbs_failures.2
    { baseEnv with updateCard := fun _ _ => .error (some 500) }
    ⟨[("67aca823198750b8d3e332a4-Vandaag", "src-v")], [("67aca823198750b8d3e332a4-c1", "m1")]⟩
    ⟨"m1", "Task", mkMirrorDesc "prive" "notes"⟩ ⟨"Vandaag"⟩
    ⟨"67aca823198750b8d3e332a4", "prive"⟩ "c1" "src-v" (some 500)
    (by decide) (by decide) (by decide) (by decide) (by decide) rfl
  exact h

/-! ## Lemmas for the per-card mirror state machine (`src/unnamed/part_008`) -/

theorem containsSub_of_isPrefixOf (l needle : List Char)
    (h : needle.isPrefixOf l = true) : containsSub l needle = true := by
  cases l with
  | nil =>
    cases needle with
    | nil => rfl
    | cons c cs => simp [List.isPrefixOf] at h
  | cons c rest => simp [containsSub, h]

/-- A freshly written mirror card (name = source card name, description =
marker text) satisfies the self-healing search predicate. -/
theorem isMirrorMatch_mkMirrorDesc (cn bn d : String) (i : Nat) :
    P8.isMirrorMatch cn bn ⟨i, cn, mkMirrorDesc bn d⟩ = true := by
  have h2 : ("\n\n" : String).data = ['\n', '\n'] := rfl
  have hdata : (mkMirrorDesc bn d).data =
      ("Original board: " ++ bn).data ++ '\n' :: '\n' :: d.data := by
    simp [mkMirrorDesc, String.data_append, h2]
  have hpre : (("Original board: " ++ bn).data).isPrefixOf (mkMirrorDesc bn d).data = true := by
    rw [hdata, List.isPrefixOf_iff_prefix]
    exact List.prefix_append _ _
  show (decide (cn = cn) &&
    containsSub (mkMirrorDesc bn d).data ("Original board: " ++ bn).data) = true
  rw [containsSub_of_isPrefixOf _ _ hpre]
  simp

theorem updateMirror_map_id (b : List P8.MirrorCard) (m : Nat) (cn bn d : String) :
    (P8.updateMirror b m cn bn d).map (fun c => c.id) = b.map (fun c => c.id) := by
  induction b with
  | nil => rfl
  | cons x xs ih =>
    by_cases hx : x.id = m <;> simp [P8.updateMirror, hx, ih]

theorem updateMirror_not_mem (b : List P8.MirrorCard) (m : Nat) (cn bn d : String)
    (h : m ∉ b.map (fun c => c.id)) : P8.updateMirror b m cn bn d = b := by
  induction b with
  | nil => rfl
  | cons x xs ih =>
    rw [List.map_cons, List.mem_cons, not_or] at h
    have hx : ¬ x.id = m := fun hh => h.1 hh.symm
    simp only [P8.updateMirror, if_neg hx, List.cons.injEq, true_and]
    exact ih h.2

/-- Updating the mirrored card with id `m` does not change the number of
cards matching the self-healing predicate, provided every id-`m` card
already matches and ids are duplicate-free. -/
theorem countP_updateMirror (cn bn d : String) (m : Nat) (b : List P8.MirrorCard)
    (hnd : (b.map (fun c => c.id)).Nodup)
    (hex : ∀ x ∈ b, x.id = m → P8.isMirrorMatch cn bn x = true) :
    (P8.updateMirror b m cn bn d).countP (P8.isMirrorMatch cn bn) =
      b.countP (P8.isMirrorMatch cn bn) := by
  induction b with
  | nil => rfl
  | cons x xs ih =>
    simp only [List.map_cons, List.nodup_cons] at hnd
    by_cases hx : x.id = m
    · have hxs : P8.updateMirror xs m cn bn d = xs :=
        updateMirror_not_mem _ _ _ _ _ (hx ▸ hnd.1)
      have hxm : P8.isMirrorMatch cn bn x = true := hex x (List.mem_cons_self x xs) hx
      have hrepl : P8.isMirrorMatch cn bn
          { x with name := cn, desc := mkMirrorDesc bn d } = true :=
        isMirrorMatch_mkMirrorDesc cn bn d x.id
      simp [P8.updateMirror, hx, hxs, List.countP_cons, hxm, hrepl]
      exact hx ▸ hrepl
    · have htail := ih hnd.2 (fun y hy hym => hex y (List.mem_cons_of_mem x hy) hym)
      simp [P8.updateMirror, hx, List.countP_cons, htail]

theorem updateMirror_id_lt (b : List P8.MirrorCard) (fresh m : Nat) (cn bn d : String)
    (hb : ∀ c ∈ b, c.id < fresh) :
    ∀ c ∈ P8.updateMirror b m cn bn d, c.id < fresh := by
  intro c hc
  have hmem : c.id ∈ (P8.updateMirror b m cn bn d).map (fun x => x.id) :=
    List.mem_map_of_mem _ hc
  rw [updateMirror_map_id] at hmem
  obtain ⟨x, hx, hxe⟩ := List.mem_map.mp hmem
  exact hxe ▸ hb x hx

/-- The mirrored card with id `m` is still present, still matching, after
an update. -/
theorem updateMirror_mem_match {b : List P8.MirrorCard} {m : Nat} {c : P8.MirrorCard}
    (hc : c ∈ b) (hid : c.id = m) (cn bn d : String) :
    ∃ y ∈ P8.updateMirror b m cn bn d, y.id = m ∧ P8.isMirrorMatch cn bn y = true := by
  induction b with
  | nil => cases hc
  | cons x xs ih =>
    rcases List.mem_cons.mp hc with rfl | hmem
    · refine ⟨{ c with name := cn, desc := mkMirrorDesc bn d }, ?_, hid, ?_⟩
      · simp [P8.updateMirror, hid]
      · exact isMirrorMatch_mkMirrorDesc cn bn d c.id
    · obtain ⟨y, hy, hy2⟩ := ih hmem
      refine ⟨y, ?_, hy2⟩
      simp only [P8.updateMirror]
      exact List.mem_cons_of_mem _ hy

theorem updateMirror_length (b : List P8.MirrorCard) (m : Nat) (cn bn d : String) :
    (P8.updateMirror b m cn bn d).length = b.length := by
  have h := congrArg List.length (updateMirror_map_id b m cn bn d)
  simpa using h

/-- One `handleCardMove` invocation preserves the per-card consistency
invariant, provided the self-healing read of the aggregate board succeeds. -/
theorem step_preserves_inv (cn bn : String) (ev : P8.MoveEv) (s : P8.MirrorState)
    (hheal : ev.selfHealOk = true) (hinv : P8.Inv cn bn s) :
    P8.Inv cn bn (P8.step cn bn ev s) := by
  obtain ⟨hbound, hnd, hcount, hmap⟩ := hinv
  cases hfv : ev.fetchOk with
  | false =>
    simp only [P8.step, hfv, Bool.not_false, if_true]
    exact ⟨hbound, hnd, hcount, hmap⟩
  | true =>
    cases hib : ev.inboxExit with
    | true =>
      simp only [P8.step, hfv, hib, Bool.not_true, Bool.false_eq_true, if_false, if_true]
      exact ⟨hbound, hnd, hcount, hmap⟩
    | false =>
      rcases hm : s.mapping with _ | m
      · cases ht : ev.tracked with
        | false =>
          simp only [P8.step, hfv, hib, hm, ht, Bool.not_true, Bool.false_eq_true, if_false]
          exact ⟨hbound, hnd, hcount, hmap⟩
        | true =>
          rcases hex : s.board.filter (P8.isMirrorMatch cn bn) with _ | ⟨c, rest⟩
          · cases hco : ev.createOk with
            | false =>
              simp only [P8.step, hfv, hib, hm, ht, hheal, hex, hco, Bool.not_true,
                Bool.false_eq_true, if_false, if_true]
              exact ⟨hbound, hnd, hcount, hmap⟩
            | true =>
              simp only [P8.step, hfv, hib, hm, ht, hheal, hex, hco, Bool.not_true,
                Bool.false_eq_true, if_false, if_true]
              refine ⟨?_, ?_, ?_, ?_⟩
              · intro x hx
                rcases List.mem_append.mp hx with hx1 | hx2
                · exact Nat.lt_succ_of_lt (hbound x hx1)
                · rw [List.mem_singleton.mp hx2]
                  exact Nat.lt_succ_self _
              · rw [List.map_append, List.nodup_append]
                refine ⟨hnd, List.nodup_singleton _, ?_⟩
                intro a ha hb2
                simp only [List.map_cons, List.map_nil, List.mem_singleton] at hb2
                obtain ⟨x, hx, hxe⟩ := List.mem_map.mp ha
                rw [hb2] at hxe
                exact lt_irrefl _ (hxe ▸ hbound x hx)
              · rw [List.filter_append, hex]
                simp [isMirrorMatch_mkMirrorDesc cn bn ev.srcDesc s.fresh]
              · exact ⟨⟨s.fresh, cn, mkMirrorDesc bn ev.srcDesc⟩,
                  List.mem_append_right _ (List.mem_singleton_self _), rfl,
                  isMirrorMatch_mkMirrorDesc cn bn ev.srcDesc s.fresh⟩
          · have hc_mem_f : c ∈ s.board.filter (P8.isMirrorMatch cn bn) := by
              rw [hex]
              exact List.mem_cons_self _ _
            have hc_mem : c ∈ s.board := (List.mem_filter.mp hc_mem_f).1
            have hc_mm : P8.isMirrorMatch cn bn c = true := (List.mem_filter.mp hc_mem_f).2
            have hexx : ∀ x ∈ s.board, x.id = c.id → P8.isMirrorMatch cn bn x = true := by
              intro x hx hxid
              have hxc : x = c := List.inj_on_of_nodup_map hnd hx hc_mem hxid
              rw [hxc]
              exact hc_mm
            cases hu : ev.updateOk with
            | false =>
              simp only [P8.step, hfv, hib, hm, ht, hheal, hex, hu, Bool.not_true,
                Bool.false_eq_true, if_false, if_true]
              refine ⟨hbound, hnd, hcount, ?_⟩
              exact ⟨c, hc_mem, rfl, hc_mm⟩
            | true =>
              simp only [P8.step, hfv, hib, hm, ht, hheal, hex, hu, Bool.not_true,
                Bool.false_eq_true, if_false, if_true]
              refine ⟨updateMirror_id_lt _ _ _ _ _ _ hbound, ?_, ?_, ?_⟩
              · rw [updateMirror_map_id]
                exact hnd
              · rw [← List.countP_eq_length_filter,
                  countP_updateMirror cn bn _ _ _ hnd hexx,
                  List.countP_eq_length_filter]
                exact hcount
              · exact updateMirror_mem_match hc_mem rfl cn bn ev.srcDesc
      · simp only [hm] at hmap
        obtain ⟨c, hc_mem, hc_id, hc_mm⟩ := hmap
        cases ht : ev.tracked with
        | true =>
          have hexx : ∀ x ∈ s.board, x.id = m → P8.isMirrorMatch cn bn x = true := by
            intro x hx hxid
            have hxc : x = c := List.inj_on_of_nodup_map hnd hx hc_mem (by rw [hxid, hc_id])
            rw [hxc]
            exact hc_mm
          cases hu : ev.updateOk with
          | false =>
            simp only [P8.step, hfv, hib, hm, ht, hu, Bool.not_true, Bool.false_eq_true,
              if_false, if_true]
            refine ⟨hbound, hnd, hcount, ?_⟩
            simp only [hm]
            exact ⟨c, hc_mem, hc_id, hc_mm⟩
          | true =>
            simp only [P8.step, hfv, hib, hm, ht, hu, Bool.not_true, Bool.false_eq_true,
              if_false, if_true]
            refine ⟨updateMirror_id_lt _ _ _ _ _ _ hbound, ?_, ?_, ?_⟩
            · rw [updateMirror_map_id]
              exact hnd
            · rw [← List.countP_eq_length_filter,
                countP_updateMirror cn bn _ _ _ hnd hexx,
                List.countP_eq_length_filter]
              exact hcount
            · exact updateMirror_mem_match hc_mem hc_id cn bn ev.srcDesc
        | false =>
          cases hdel : (ev.deleteOk && s.board.any (fun x => x.id = m)) with
          | false =>
            simp only [P8.step, hfv, hib, hm, ht, hdel, Bool.not_true, Bool.false_eq_true,
              if_false, if_true]
            refine ⟨hbound, hnd, hcount, ?_⟩
            simp only [hm]
            exact ⟨c, hc_mem, hc_id, hc_mm⟩
          | true =>
            simp only [P8.step, hfv, hib, hm, ht, hdel, Bool.not_true, Bool.false_eq_true,
              if_false, if_true]
            refine ⟨?_, ?_, ?_, trivial⟩
            · intro x hx
              exact hbound x (List.mem_of_mem_filter hx)
            · exact hnd.sublist ((List.filter_sublist _).map _)
            · rw [← List.countP_eq_length_filter] at hcount ⊢
              exact le_trans ((List.filter_sublist _).countP_le _) hcount

theorem runMoves_inv (cn bn : String) (evs : List P8.MoveEv) : ∀ s0 : P8.MirrorState,
    P8.Inv cn bn s0 → (∀ ev ∈ evs, ev.selfHealOk = true) →
    P8.Inv cn bn (P8.runMoves cn bn s0 evs) := by
  induction evs with
  | nil =>
    intro s0 h _
    exact h
  | cons e evs ih =>
    intro s0 h hh
    exact ih (P8.step cn bn e s0)
      (step_preserves_inv cn bn e s0 (hh e (List.mem_cons_self _ _)) h)
      (fun ev hev => hh ev (List.mem_cons_of_mem _ hev))

/-! ## Claim C1 — at most one mirrored card per source card -/

/-- C1: in `handleCardMove` of `src/unnamed/part_008` (lines 262–355 with
`findExistingMirroredCards`, lines 112–126), starting from any consistent
per-card state, every sequence of invocations for the same
`(sourceBoardId, cardId)` — duplicate deliveries included — keeps at most
one mirrored card of that source card on the aggregate board at every
prefix of the sequence; and whenever no `cardMapping` entry exists but a
matching mirrored card is present, the step adopts the first such card into
the mapping instead of creating a duplicate (the board size is unchanged). -/
theorem at_most_one_mirrored_card (cn bn : String) (s0 : P8.MirrorState)
    (evs : List P8.MoveEv) (hinv : P8.Inv cn bn s0)
    (hheal : ∀ ev ∈ evs, ev.selfHealOk = true) :
    (∀ n, P8.mirrorCount cn bn (P8.runMoves cn bn s0 (evs.take n)) ≤ 1) ∧
    (∀ (ev : P8.MoveEv) (s : P8.MirrorState) (c : P8.MirrorCard),
      P8.Inv cn bn s → ev.fetchOk = true → ev.inboxExit = false →
      ev.tracked = true → ev.selfHealOk = true → s.mapping = none →
      (s.board.filter (P8.isMirrorMatch cn bn)).head? = some c →
      (P8.step cn bn ev s).mapping = some c.id ∧
      (P8.step cn bn ev s).board.length = s.board.length) := by
  constructor
  · intro n
    have h := runMoves_inv cn bn (evs.take n) s0 hinv
      (fun ev hev => hheal ev ((List.take_sublist n evs).subset hev))
    exact h.2.2.1
  · intro ev s c hs hf hib ht hsh hm hhead
    rcases hex : s.board.filter (P8.isMirrorMatch cn bn) with _ | ⟨c0, rest⟩
    · rw [hex] at hhead
      cases hhead
    · rw [hex] at hhead
      have hc : c0 = c := by simpa using hhead
      subst hc
      cases hu : ev.updateOk with
      | false => simp [P8.step, hf, hib, hm, ht, hsh, hex, hu]
      | true => simp [P8.step, hf, hib, hm, ht, hsh, hex, hu, updateMirror_length]

/-- Witness for `at_most_one_mirrored_card`: two identical tracked-list
move deliveries for one card starting from an empty state leave at most
one mirror; and on a state holding one matching mirror but no mapping
entry, the step adopts mirror id 0 without growing the board. -/
theorem at_most_one_mirrored_card_witness :
    P8.mirrorCount "Task" "prive" (P8.runMoves "Task" "prive" ⟨none, [], 0⟩
      (List.take 2 [⟨true, false, true, true, true, true, true, ""⟩,
        ⟨true, false, true, true, true, true, true, ""⟩])) ≤ 1 ∧
    ((P8.step "Task" "prive" ⟨true, false, true, true, true, true, true, ""⟩
        ⟨none, [⟨0, "Task", mkMirrorDesc "prive" ""⟩], 1⟩).mapping = some 0 ∧
      (P8.step "Task" "prive" ⟨true, false, true, true, true, true, true, ""⟩
        ⟨none, [⟨0, "Task", mkMirrorDesc "prive" ""⟩], 1⟩).board.length = 1) := by
  have h := at_most_one_mirrored_card "Task" "prive" ⟨none, [], 0⟩
    [⟨true, false, true, true, true, true, true, ""⟩,
      ⟨true, false, true, true, true, true, true, ""⟩]
    ⟨by decide, by decide, by decide, trivial⟩ (by decide)
  refine ⟨h.1 2, ?_⟩
  have h2 := h.2 ⟨true, false, true, true, true, true, true, ""⟩
    ⟨none, [⟨0, "Task", mkMirrorDesc "prive" ""⟩], 1⟩
    ⟨0, "Task", mkMirrorDesc "prive" ""⟩
    ⟨by decide, by decide, by decide, trivial⟩ rfl rfl rfl rfl rfl (by decide)
  exact h2

end Mirror
